import Mathlib

/-!
Verification of the Bridge query translator (SQL ⇄ MongoDB shell text).

This file gives a shallow embedding, in Lean, of the translation engine in
`src/query_translator/sql_to_mongo.py` and `src/query_translator/mongo_to_sql.py`,
and proves properties of that embedding.

Conventions of the embedding:
- Python values flowing through the translator (the results of `json.loads`,
  `ast.literal_eval`, `_parse_sql_value`, …) are modelled by the inductive
  type `Value`; Python dicts are ordered association lists (`PyDict`) with
  Python's insertion-order/overwrite semantics.
- Python exceptions are modelled by `Except PyErr α`; `PyErr` records only the
  exception class (the message strings are elided).
- Text processing is done over `List Char` (`String.data`); every definition
  is executable and closed theorems are discharged by kernel evaluation.
- Third-party-library behaviour at the boundary (the `sqlparse` token stream
  of a SQL statement, Python's `str(int)` decimal formatting, `int()` parsing,
  `json.loads` and `ast.literal_eval` decoding, `re` matching for the handful
  of fixed patterns in the source) is modelled by explicit Lean functions that
  follow the documented behaviour of those libraries on the inputs the claims
  exercise; each such function's doc comment names the library feature it
  models.
- Python's builtin `set` has no specified iteration order (string hashing is
  salted per process); where the source iterates a set (`_handle_insert`),
  the embedding takes the enumeration order as an explicit parameter.
-/

/-! ## Basic character and list utilities -/

/-- Whitespace test matching Python's `str.strip` / `\s` on the ASCII inputs
the translator handles. -/
def isWs (c : Char) : Bool :=
  c = ' ' || c = '\t' || c = '\n' || c = '\r'

/-- Python `\w` (word character) on ASCII: letters, digits, underscore. -/
def isWordChar (c : Char) : Bool :=
  c.isAlpha || c.isDigit || c = '_'

/-- Drop leading characters satisfying `p` (Python `lstrip`). -/
def lstripP (p : Char → Bool) (cs : List Char) : List Char :=
  cs.dropWhile p

/-- Drop trailing characters satisfying `p` (Python `rstrip`). -/
def rstripP (p : Char → Bool) (cs : List Char) : List Char :=
  (cs.reverse.dropWhile p).reverse

/-- Python `str.strip()` (no argument): strip whitespace on both sides. -/
def pyStrip (cs : List Char) : List Char :=
  rstripP isWs (lstripP isWs cs)

/-- Python `str.strip(chars)` restricted to a single character `c`. -/
def pyStripChar (c : Char) (cs : List Char) : List Char :=
  rstripP (· = c) (lstripP (· = c) cs)

/-- Python `str.rstrip(chars)` restricted to a single character `c`. -/
def pyRstripChar (c : Char) (cs : List Char) : List Char :=
  rstripP (· = c) cs

/-- Does `pre` occur as a prefix of `cs`? -/
def isPrefixL : List Char → List Char → Bool
  | [], _ => true
  | _ :: _, [] => false
  | a :: as, b :: bs => a == b && isPrefixL as bs

/-- Drop a known prefix (used after a successful `isPrefixL` test). -/
def dropPrefixL (pre cs : List Char) : List Char :=
  cs.drop pre.length

/-- Does `pat` occur as a contiguous substring of `cs`?  Models Python's
`in` on strings and `re.search` of a fixed literal pattern. -/
def containsSub (pat cs : List Char) : Bool :=
  match cs with
  | [] => isPrefixL pat []
  | _ :: tl => isPrefixL pat cs || containsSub pat tl

/-- Python `str.replace(old, new)`: replace every non-overlapping occurrence,
scanning left to right.  `old` is assumed non-empty (as in the source).
The fuel argument is the scan position budget; it is always called with
`cs.length + 1`, which suffices. -/
def replaceAllF (old new : List Char) : Nat → List Char → List Char
  | 0, cs => cs
  | _ + 1, [] => []
  | fuel + 1, c :: tl =>
    if isPrefixL old (c :: tl) ∧ old ≠ [] then
      new ++ replaceAllF old new fuel (dropPrefixL old (c :: tl))
    else
      c :: replaceAllF old new fuel tl

/-- Python `str.replace(old, new)` (see `replaceAllF`). -/
def replaceAll (old new cs : List Char) : List Char :=
  replaceAllF old new (cs.length + 1) cs

/-- Python `str.split(sep)` for a non-empty separator: split on every
occurrence of `sep`, keeping empty pieces.  Fuel as in `replaceAllF`. -/
def splitOnSubF (sep : List Char) : Nat → List Char → List (List Char)
  | 0, cs => [cs]
  | _ + 1, [] => [[]]
  | fuel + 1, c :: tl =>
    if isPrefixL sep (c :: tl) ∧ sep ≠ [] then
      [] :: splitOnSubF sep fuel (dropPrefixL sep (c :: tl))
    else
      match splitOnSubF sep fuel tl with
      | [] => [[c]]
      | p :: ps => (c :: p) :: ps

/-- Python `str.split(sep)` (see `splitOnSubF`). -/
def splitOnSub (sep cs : List Char) : List (List Char) :=
  splitOnSubF sep (cs.length + 1) cs

/-- Python `str.upper()` on ASCII text. -/
def upperL (cs : List Char) : List Char :=
  cs.map Char.toUpper

/-- Join a list of strings with a separator (Python `sep.join(parts)`). -/
def joinSep (sep : String) : List String → String
  | [] => ""
  | [s] => s
  | s :: rest => s ++ sep ++ joinSep sep rest

/-- Python `str.split(None, 2)`: split on runs of whitespace into at most
three pieces; leading whitespace of each piece (including the remainder) is
discarded, the remainder keeps its trailing text verbatim. -/
def pySplitNone2 (cs : List Char) : List (List Char) :=
  let r0 := lstripP isWs cs
  let w1 := r0.takeWhile (fun c => ¬ isWs c)
  let r1 := lstripP isWs (r0.dropWhile (fun c => ¬ isWs c))
  let w2 := r1.takeWhile (fun c => ¬ isWs c)
  let r2 := lstripP isWs (r1.dropWhile (fun c => ¬ isWs c))
  if w1 = [] then []
  else if w2 = [] then [w1]
  else if r2 = [] then [w1, w2]
  else [w1, w2, r2]

/-! ## Decimal numerals

Python's `str(n)` for an `int` prints the decimal numeral; `int(s)` parses an
optionally signed decimal numeral surrounded by optional whitespace.  The
embedding realises both through `Nat.digits`. -/

/-- The character for a single decimal digit value. -/
def digitChar (d : Nat) : Char :=
  Char.ofNat (48 + d)

/-- The numeric value of a decimal digit character. -/
def charVal (c : Char) : Nat :=
  c.toNat - 48

/-- Base-10 digits of `n`, least significant first (`Nat.digits 10 n`,
re-stated with fuel so that it reduces by computation; `fuel > n`
suffices). -/
def natDigitsRev : Nat → Nat → List Nat
  | 0, _ => []
  | _ + 1, 0 => []
  | fuel + 1, n => (n % 10) :: natDigitsRev fuel (n / 10)

/-- Decimal numeral of a natural number, most significant digit first
(Python `str(n)` for `n ≥ 0`). -/
def natToDec (n : Nat) : List Char :=
  if n = 0 then ['0'] else ((natDigitsRev (n + 1) n).reverse.map digitChar)

/-- Decimal text of an integer (Python `str(n)`). -/
def intToDec (i : Int) : List Char :=
  if i < 0 then '-' :: natToDec i.natAbs else natToDec i.toNat

/-- Value of a list of decimal digit characters, most significant first. -/
def digitsVal (cs : List Char) : Nat :=
  cs.foldl (fun a c => a * 10 + charVal c) 0

/-- Python `int(s)`: optional surrounding whitespace, optional sign, then a
non-empty run of decimal digits (the underscore-digit-grouping extension is
not modelled; no input of the translator uses it). -/
def pyInt (cs : List Char) : Option Int :=
  let t := pyStrip cs
  match t with
  | '-' :: r => if r ≠ [] ∧ r.all Char.isDigit then some (-(digitsVal r : Int)) else none
  | '+' :: r => if r ≠ [] ∧ r.all Char.isDigit then some ((digitsVal r : Int)) else none
  | _ => if t ≠ [] ∧ t.all Char.isDigit then some ((digitsVal t : Int)) else none

/-- Shape test for Python `float(s)` on the literal forms the translator can
meet: optional sign, then digits with at most one decimal point, with at
least one digit (scientific notation and inf/nan are not modelled; no claim
exercises them). -/
def pyFloatValid (cs : List Char) : Bool :=
  let t := pyStrip cs
  let body := match t with
    | '-' :: r => r
    | '+' :: r => r
    | _ => t
  let intPart := body.takeWhile Char.isDigit
  let rest := body.drop intPart.length
  match rest with
  | [] => intPart ≠ []
  | '.' :: frac => (intPart ≠ [] ∨ frac ≠ []) && frac.all Char.isDigit
  | _ => false

/-! ## The value model -/

/-- A Python value as produced by the translator's literal parsers
(`json.loads`, `ast.literal_eval`, `_parse_sql_value`, `convert_value`):
None, bool, int, float, str, list, dict.  Floats are carried as their source
text (no claim computes with a float's numeric value). -/
inductive Value where
  | none
  | bool (b : Bool)
  | int (n : Int)
  | float (raw : String)
  | str (s : String)
  | arr (xs : List Value)
  | obj (kvs : List (String × Value))

/-- A Python dict with string keys: an association list in insertion order. -/
abbrev PyDict := List (String × Value)

/-- Python dict assignment `d[k] = v`: overwrite in place if the key exists,
else append. -/
def dinsert (d : PyDict) (k : String) (v : Value) : PyDict :=
  match d with
  | [] => [(k, v)]
  | (k', v') :: rest =>
    if k' = k then (k', v) :: rest else (k', v') :: dinsert rest k v

/-- Python dict lookup `d.get(k)`. -/
def dget (d : PyDict) (k : String) : Option Value :=
  match d with
  | [] => Option.none
  | (k', v') :: rest => if k' = k then some v' else dget rest k

/-- Python `k in d`. -/
def dhas (d : PyDict) (k : String) : Bool :=
  (dget d k).isSome

/-- Structural equality test on values (Python `==` on the value forms the
translator compares; `True == 1` style cross-type equalities are modelled
only where a definition needs them). -/
def Value.beq : Value → Value → Bool
  | .none, .none => true
  | .bool a, .bool b => a = b
  | .int a, .int b => a = b
  | .float a, .float b => a = b
  | .str a, .str b => a = b
  | .arr xs, .arr ys => listBeq xs ys
  | .obj xs, .obj ys => dictBeq xs ys
  | _, _ => false
where
  /-- Pointwise equality of value lists. -/
  listBeq : List Value → List Value → Bool
    | [], [] => true
    | x :: xs, y :: ys => x.beq y && listBeq xs ys
    | _, _ => false
  /-- Pointwise equality of key/value lists. -/
  dictBeq : List (String × Value) → List (String × Value) → Bool
    | [], [] => true
    | (k, x) :: xs, (l, y) :: ys => k = l && x.beq y && dictBeq xs ys
    | _, _ => false

/-- Python truthiness of a value (`if val:`). -/
def pyTruthy : Value → Bool
  | .none => false
  | .bool b => b
  | .int n => n ≠ 0
  | .float raw => raw ≠ "0.0" && raw ≠ "0" && raw ≠ "-0.0"
  | .str s => s ≠ ""
  | .arr xs => ¬ xs.isEmpty
  | .obj kvs => ¬ kvs.isEmpty

/-- Python `str(value)` for the scalar values the renderers stringify
(`str(True) = "True"`, `str(None) = "None"`); containers are rendered in
Python `repr` style, which no claim exercises. -/
def pyStr : Value → String
  | .none => "None"
  | .bool b => if b then "True" else "False"
  | .int n => String.mk (intToDec n)
  | .float raw => raw
  | .str s => s
  | .arr _ => "[…]"
  | .obj _ => "\x7b…\x7d"

/-- The Python exception classes the translator raises (messages elided). -/
inductive PyErr where
  | syntaxError
  | valueError
  | notImplementedError
  | typeError
  deriving DecidableEq, Repr

/-! ## sql_to_mongo.py — literal parsing -/

/-- Source: `_parse_sql_value` (sql_to_mongo.py).  Strip; quoted text loses
its quotes; `NULL`/`TRUE`/`FALSE` case-insensitively become None/booleans;
otherwise a numeral (`float` when a `.` is present, else `int`), and on
failure the raw text. -/
def parse_sql_value (value : String) : Value :=
  let v := pyStrip value.data
  if (isPrefixL ['\''] v ∧ v.getLast? = some '\'') ∨
     (isPrefixL ['"'] v ∧ v.getLast? = some '"') then
    .str (String.mk (v.drop 1).dropLast)
  else if upperL v = "NULL".data then .none
  else if upperL v = "TRUE".data then .bool true
  else if upperL v = "FALSE".data then .bool false
  else if v.contains '.' then
    if pyFloatValid v then .float (String.mk v) else .str (String.mk v)
  else
    match pyInt v with
    | some n => .int n
    | Option.none => .str (String.mk v)

/-- Source: `convert_value` (sql_to_mongo.py).  `int`, else `float`, else the
raw string. -/
def convert_value (val : List Char) : Value :=
  match pyInt val with
  | some n => .int n
  | Option.none => if pyFloatValid val then .float (String.mk val) else .str (String.mk val)

/-- Source: `parse_where_conditions` (sql_to_mongo.py).  Strip the text and
any trailing semicolons, split naively on `" AND "`, and read each conjunct
as `field op value` (via `split(None, 2)`); conjuncts with fewer than three
tokens are skipped.  The value text is stripped of whitespace, trailing
semicolons and surrounding quotes; `=` stores that raw text, the four
inequality operators store `{"$op": convert_value(text)}`, and any other
operator stores `{"$op?": text}`. -/
def parse_where_conditions (text : String) : PyDict :=
  let t := pyRstripChar ';' (pyStrip text.data)
  if t = [] then []
  else
    (splitOnSub " AND ".data t).foldl (fun out part =>
      match pySplitNone2 part with
      | field :: op :: val :: _ =>
        let v := pyStripChar '"' (pyStripChar '\'' (pyRstripChar ';' (pyStrip val)))
        let fieldS := String.mk field
        if op = ['='] then dinsert out fieldS (.str (String.mk v))
        else if op = ['>'] then dinsert out fieldS (.obj [("$gt", convert_value v)])
        else if op = ['<'] then dinsert out fieldS (.obj [("$lt", convert_value v)])
        else if op = ['>', '='] then dinsert out fieldS (.obj [("$gte", convert_value v)])
        else if op = ['<', '='] then dinsert out fieldS (.obj [("$lte", convert_value v)])
        else dinsert out fieldS (.obj [("$op?", .str (String.mk v))])
      | _ => out) []

/-! ## A small regular-expression engine

The source drives its parsing with `re` patterns.  `Rx` is the abstract
syntax of the fragment those patterns use; `Rx.runM` is a backtracking
matcher in continuation-passing style with a fuel bound (every pattern in
the source is star-height ≤ 2 on bounded inputs, so the quadratic fuel used
by `rxSearch` is always sufficient on the inputs the claims evaluate).
Python semantics modelled: leftmost search (`re.search` tries every start
position left to right), greedy/lazy repetition by backtracking, numbered
capture groups (a group that did not participate reads as `None`),
case-insensitive literals for `re.IGNORECASE`, `$` as end of input. -/
inductive Rx where
  | eps
  | lit (s : String) (ci : Bool)
  | cls (p : Char → Bool)
  | seq (a b : Rx)
  | alt (a b : Rx)
  | star (a : Rx) (lazy : Bool)
  | group (idx : Nat) (a : Rx)
  | endAnchor

/-- Sequence of several pieces. -/
def Rx.cat (rs : List Rx) : Rx :=
  rs.foldr Rx.seq .eps

/-- Greedy `+`. -/
def Rx.plus (a : Rx) : Rx :=
  .seq a (.star a false)

/-- Lazy `+?`. -/
def Rx.plusLazy (a : Rx) : Rx :=
  .seq a (.star a true)

/-- Greedy `?`. -/
def Rx.opt (a : Rx) : Rx :=
  .alt a .eps

/-- Case-insensitive character comparison used by `lit _ true`. -/
def ciEq (a b : Char) : Bool :=
  a.toLower = b.toLower

/-- Prefix test for a literal, optionally case-insensitive. -/
def litPrefix (s : List Char) (ci : Bool) (cs : List Char) : Option (List Char) :=
  match s, cs with
  | [], rest => some rest
  | _ :: _, [] => Option.none
  | a :: s', c :: cs' =>
    if (if ci then ciEq a c else a = c) then litPrefix s' ci cs' else Option.none

/-- Capture store: group index to captured text, newest first. -/
abbrev Caps := List (Nat × List Char)

/-- The backtracking matcher.  `k` is the continuation receiving the rest of
the input and the capture store; the result is `some caps` for the first
(leftmost in Python's backtracking order) way to complete the match. -/
def Rx.runM : Rx → Nat → List Char → Caps → (List Char → Caps → Option Caps) → Option Caps
  | _, 0, _, _, _ => Option.none
  | .eps, _ + 1, cs, caps, k => k cs caps
  | .lit s ci, _ + 1, cs, caps, k =>
    match litPrefix s.data ci cs with
    | some rest => k rest caps
    | Option.none => Option.none
  | .cls p, _ + 1, cs, caps, k =>
    match cs with
    | [] => Option.none
    | c :: rest => if p c then k rest caps else Option.none
  | .seq a b, fuel + 1, cs, caps, k =>
    a.runM fuel cs caps (fun cs2 caps2 => b.runM fuel cs2 caps2 k)
  | .alt a b, fuel + 1, cs, caps, k =>
    match a.runM fuel cs caps k with
    | some r => some r
    | Option.none => b.runM fuel cs caps k
  | .star a lz, fuel + 1, cs, caps, k =>
    let deeper := fun cs2 caps2 => Rx.runM (.star a lz) fuel cs2 caps2 k
    if lz then
      match k cs caps with
      | some r => some r
      | Option.none => a.runM fuel cs caps deeper
    else
      match a.runM fuel cs caps deeper with
      | some r => some r
      | Option.none => k cs caps
  | .group idx a, fuel + 1, cs, caps, k =>
    a.runM fuel cs caps (fun cs2 caps2 =>
      k cs2 ((idx, cs.take (cs.length - cs2.length)) :: caps2))
  | .endAnchor, _ + 1, cs, caps, k =>
    match cs with
    | [] => k [] caps
    | _ :: _ => Option.none

/-- Fuel that suffices for every pattern/input pair the claims evaluate. -/
def rxFuel (cs : List Char) : Nat :=
  (cs.length + 8) * (cs.length + 8)

/-- Match `r` at the start of `cs` (Python `pattern.match`). -/
def rxMatch (r : Rx) (cs : List Char) : Option Caps :=
  r.runM (rxFuel cs) cs [] (fun _ caps => some caps)

/-- Python `re.search`: try every start position, leftmost first. -/
def rxSearch (r : Rx) (cs : List Char) : Option Caps :=
  match rxMatch r cs with
  | some caps => some caps
  | Option.none =>
    match cs with
    | [] => Option.none
    | _ :: tl => rxSearch r tl

/-- Read group `idx` from a capture store (Python `m.group(idx)`; `None`
when the group did not participate in the match). -/
def capGet (caps : Caps) (idx : Nat) : Option (List Char) :=
  match caps with
  | [] => Option.none
  | (i, s) :: rest => if i = idx then some s else capGet rest idx

/-- Python `re.findall(pattern, s)` for a single-group pattern: leftmost
matches, scanning resuming after each match's end.  The end of a match is
not exposed by `Rx.runM`, so this helper is specialised to the one findall
in the source, `\(([^)]+)\)` (`_handle_insert`): after a match it resumes
after the captured group's closing parenthesis. -/
def findAllParen : Nat → List Char → List (List Char)
  | 0, _ => []
  | _ + 1, [] => []
  | fuel + 1, '(' :: tl =>
    let inner := tl.takeWhile (fun c => c ≠ ')')
    let rest := tl.drop inner.length
    match rest with
    | ')' :: after => if inner = [] then findAllParen fuel tl else inner :: findAllParen fuel after
    | _ => findAllParen fuel tl
  | fuel + 1, _ :: tl => findAllParen fuel tl

/-! ## Character-class and pattern shorthands -/

/-- `.` in a pattern compiled without `re.DOTALL`: any character except a
newline. -/
def anyNoNl : Rx :=
  .cls (fun c => c ≠ '\n')

/-- `[\s\S]`, or `.` under `re.DOTALL`: any character. -/
def anyCh : Rx :=
  .cls (fun _ => true)

/-- `\w+` as a pattern piece. -/
def wordPlus : Rx :=
  .plus (.cls isWordChar)

/-- `\s+` as a pattern piece. -/
def wsPlus : Rx :=
  .plus (.cls isWs)

/-- `\s*` as a pattern piece. -/
def wsStar : Rx :=
  .star (.cls isWs) false

/-- Case-insensitive search for `JOIN` delimited by word boundaries
(`re.search(r"\bJOIN\b", s, re.IGNORECASE)` in `_handle_select`). -/
def containsWordJoin : Option Char → List Char → Bool
  | _, [] => false
  | prev, c :: tl =>
    ((litPrefix "JOIN".data true (c :: tl)).isSome
      && (match prev with
          | Option.none => true
          | some p => ! isWordChar p)
      && (match (c :: tl).drop 4 with
          | [] => true
          | d :: _ => ! isWordChar d))
    || containsWordJoin (some c) tl

/-! ## sql_to_mongo.py — JSON-style rendering -/

mutual

/-- Source: `_format_json` (sql_to_mongo.py).  Dicts render with bare keys
between spaced braces, lists between spaced brackets, strings double-quoted
with embedded double quotes backslash-escaped, `None` as `null`, and every
other value through Python `str()` (so booleans render as `True`/`False`). -/
def format_json : Value → String
  | .obj kvs => "\x7b " ++ joinSep ", " (formatJsonItems kvs) ++ " \x7d"
  | .arr xs => "[ " ++ joinSep ", " (formatJsonElems xs) ++ " ]"
  | .str s => "\"" ++ String.mk (replaceAll ['"'] ['\\', '"'] s.data) ++ "\""
  | .none => "null"
  | v => pyStr v

def formatJsonItems : List (String × Value) → List String
  | [] => []
  | (k, v) :: rest => (k ++ ": " ++ format_json v) :: formatJsonItems rest

def formatJsonElems : List Value → List String
  | [] => []
  | v :: rest => format_json v :: formatJsonElems rest

end

/-! ## sql_to_mongo.py — the query object -/

/-- The dict assembled by `build_mongo_query` / `build_mongo_find`
(sql_to_mongo.py): collection, filter, optional projection, sort list,
limit and group pipeline.  A `skip` slot exists in the dict type (the
renderer's input is a plain dict) but no SQL-side builder ever sets it and
`_format_mongo_find` never reads it. -/
structure MongoQueryObj where
  collection : String
  find : PyDict
  projection : Option PyDict
  sort : Option (List (String × Int)) := Option.none
  limit : Option Int := Option.none
  group : Option Value := Option.none
  skip : Option Int := Option.none

/-- Source: `build_mongo_find` (sql_to_mongo.py).  Projection maps each
selected column to 1 unless the column list is empty or contains `*`; an
empty projection dict is stored as `None`. -/
def build_mongo_find (table_name : String) (where_clause : PyDict) (columns : List String) :
    MongoQueryObj :=
  let projection :=
    if columns ≠ [] ∧ ¬ columns.contains "*" then
      columns.foldl (fun d c => dinsert d c (.int 1)) []
    else []
  { collection := table_name
    find := where_clause
    projection := if ¬ projection.isEmpty then some projection else Option.none }

/-- Source: `build_mongo_query` (sql_to_mongo.py).  Adds sort, limit and the
`$group` pipeline stage (group keys mapped to their `$field` references plus
a `$sum: 1` count) to the find object. -/
def build_mongo_query (table_name : String) (columns : List String) (where_clause : PyDict)
    (order_by : List (String × Int)) (group_by : List String) (limit_val : Option Int) :
    MongoQueryObj :=
  let q := build_mongo_find table_name where_clause columns
  let q := if order_by ≠ [] then { q with sort := some order_by } else q
  let q := match limit_val with
    | some l => { q with limit := some l }
    | Option.none => q
  if group_by ≠ [] then
    { q with group := some (.obj [("$group", .obj
        [("_id", .obj (group_by.map (fun gb => (gb, Value.str ("$" ++ gb))))),
         ("count", .obj [("$sum", .int 1)])])]) }
  else q

/-- Source: `_format_mongo_find` (sql_to_mongo.py).  `db.<c>.find(filter[,
projection])` with `.sort(...)` and `.limit(n)` appended only when present
and truthy; `skip` is never rendered. -/
def format_mongo_find (q : MongoQueryObj) : String :=
  let cmd := "db." ++ q.collection ++ ".find(" ++ format_json (.obj q.find)
  let cmd := match q.projection with
    | some p => if ¬ p.isEmpty then cmd ++ ", " ++ format_json (.obj p) else cmd
    | Option.none => cmd
  let cmd := cmd ++ ")"
  let cmd := match q.sort with
    | some s =>
      if ¬ s.isEmpty then
        cmd ++ ".sort(" ++
          format_json (.obj (s.foldl (fun d fd => dinsert d fd.1 (.int fd.2)) [])) ++ ")"
      else cmd
    | Option.none => cmd
  match q.limit with
  | some l => if l ≠ 0 then cmd ++ ".limit(" ++ String.mk (intToDec l) ++ ")" else cmd
  | Option.none => cmd

/-- Source: `_format_mongo_aggregate` (sql_to_mongo.py). -/
def format_mongo_aggregate (collection : String) (pipeline : List Value) : String :=
  "db." ++ collection ++ ".aggregate(" ++ format_json (.arr pipeline) ++ ")"

/-! ## sql_to_mongo.py — the sqlparse token boundary

`sql_to_mongo` hands the query text to the third-party `sqlparse` library
and walks the resulting token stream.  `SqlTok` models that stream: the
token kinds `parse_select_statement` and `Statement.get_type` distinguish
(whitespace, DML/DDL keywords, plain keywords, identifier lists,
identifiers, WHERE groups, anything else).  Theorems about concrete SQL
inputs state the token stream sqlparse produces for them as explicit data. -/
inductive SqlTok where
  | ws
  | dml (v : String)
  | ddl (v : String)
  | keyword (v : String)
  | identList (ids : List String)
  | ident (raw : String)
  | whereTok (raw : String)
  | other (raw : String)

/-- sqlparse `token.is_whitespace`. -/
def SqlTok.isWsTok : SqlTok → Bool
  | .ws => true
  | _ => false

/-- sqlparse `token.ttype is Keyword` (`Keyword.DML` is a distinct ttype,
so DML tokens answer false). -/
def SqlTok.isKw : SqlTok → Bool
  | .keyword _ => true
  | _ => false

/-- Python `str(token)`: the raw text of the token.  For an
`IdentifierList` the sub-identifier texts joined by `", "` stand in for the
original text (the source only ever reads an identifier list through
`get_identifiers`, never through `str`, on the paths the claims exercise). -/
def SqlTok.rawText : SqlTok → String
  | .ws => " "
  | .dml v => v
  | .ddl v => v
  | .keyword v => v
  | .identList ids => joinSep ", " ids
  | .ident raw => raw
  | .whereTok raw => raw
  | .other raw => raw

/-- sqlparse `Statement.get_type()` (modelled): the uppercased first DML or
DDL token, skipping whitespace, else `"UNKNOWN"`.  The source immediately
uppercases the result again, which is the identity here. -/
def get_type (statement : List SqlTok) : String :=
  match statement.filter (fun t => ! t.isWsTok) with
  | [] => "UNKNOWN"
  | .dml v :: _ => String.mk (upperL v.data)
  | .ddl v :: _ => String.mk (upperL v.data)
  | _ :: _ => "UNKNOWN"

/-- Source: `extract_columns` (sql_to_mongo.py).  An `IdentifierList` gives
its stripped identifiers, an `Identifier` a singleton, and any other token
its raw text stripped and with all spaces removed (empty text gives no
columns). -/
def extract_columns : SqlTok → List String
  | .identList ids => ids.map (fun s => String.mk (pyStrip s.data))
  | .ident raw => [String.mk (pyStrip raw.data)]
  | t =>
    let raw := (pyStrip t.rawText.data).filter (fun c => c ≠ ' ')
    if raw.isEmpty then [] else [String.mk raw]

/-- Source: `extract_where_clause` (sql_to_mongo.py). -/
def extract_where_clause (where_token : SqlTok) : PyDict :=
  let raw := pyStrip where_token.rawText.data
  let raw := if isPrefixL "WHERE".data (upperL raw) then pyStrip (raw.drop 5) else raw
  parse_where_conditions (String.mk raw)

/-- Python `str.split()` with no arguments: split on whitespace runs,
discarding empties. -/
def pySplitWsF : Nat → List Char → List (List Char)
  | 0, _ => []
  | fuel + 1, cs =>
    let cs' := lstripP isWs cs
    match cs' with
    | [] => []
    | _ :: _ =>
      let w := cs'.takeWhile (fun c => ¬ isWs c)
      w :: pySplitWsF fuel (cs'.drop w.length)

/-- Python `str.split()` (see `pySplitWsF`). -/
def pySplitWs (cs : List Char) : List (List Char) :=
  pySplitWsF (cs.length + 1) cs

/-- Source: `parse_order_by` (sql_to_mongo.py), taking the token's raw text
(the source calls `str(token)` first).  Comma-separated parts; a bare field
sorts ascending, `ASC`/`DESC` select the direction, anything else falls
back to ascending. -/
def parse_order_by (text : String) : List (String × Int) :=
  let raw := pyRstripChar ';' (pyStrip text.data)
  if raw.isEmpty then []
  else
    (splitOnSub [','] raw).map (fun part =>
      match pySplitWs (pyStrip part) with
      | [s] => (String.mk s, (1 : Int))
      | [f, d] =>
        if upperL d = "ASC".data then (String.mk f, (1 : Int))
        else if upperL d = "DESC".data then (String.mk f, (-1 : Int))
        else (String.mk f, (1 : Int))
      | _ => (String.mk (pyStrip part), (1 : Int)))

/-- Source: `parse_group_by` (sql_to_mongo.py). -/
def parse_group_by (text : String) : List String :=
  let raw := pyRstripChar ';' (pyStrip text.data)
  if raw.isEmpty then []
  else (splitOnSub [','] raw).map (fun x => String.mk (pyStrip x))

/-- Source: `parse_limit_value` (sql_to_mongo.py): `int(...)` or `None`. -/
def parse_limit_value (text : String) : Option Int :=
  pyInt (pyRstripChar ';' (pyStrip text.data))

/-- Is the token a DML keyword whose uppercased text is `name`? -/
def SqlTok.isDmlNamed (t : SqlTok) (name : String) : Bool :=
  match t with
  | .dml v => upperL v.data = name.data
  | _ => false

/-- Is the token a plain keyword whose uppercased text is `name`? -/
def SqlTok.isKwNamed (t : SqlTok) (name : String) : Bool :=
  match t with
  | .keyword v => upperL v.data = name.data
  | _ => false

/-- Is the token a sqlparse `Where` group? -/
def SqlTok.isWhereTok : SqlTok → Bool
  | .whereTok _ => true
  | _ => false

/-- The mutable locals of `parse_select_statement`'s token loop. -/
structure SelState where
  columns : List String := []
  table : Option String := Option.none
  whereClause : PyDict := []
  orderBy : List (String × Int) := []
  groupBy : List String := []
  limitVal : Option Int := Option.none
  foundSelect : Bool := false
  readingCols : Bool := false
  readingFrom : Bool := false

/-- Source: the `while i < len(tokens)` loop of `parse_select_statement`
(sql_to_mongo.py), translated branch for branch.  The Python loop indexes
`tokens[i]` and peeks `tokens[i+1]`/`tokens[i+2]`; here the remaining
suffix plays the role of `i`.  The ORDER/GROUP branches reproduce the
source's fall-through: when the keyword after ORDER/GROUP is not BY, the
loop has already advanced one token and the bottom `i += 1` skips one
more. -/
def selLoop : List SqlTok → SelState → SelState
  | [], st => st
  | tok :: rest, st =>
    if tok.isDmlNamed "SELECT" then
      selLoop rest { st with foundSelect := true, readingCols := true }
    else if st.readingCols then
      if tok.isKwNamed "FROM" then
        selLoop rest { st with readingCols := false, readingFrom := true }
      else
        let possible := extract_columns tok
        selLoop rest { st with columns := if ¬ possible.isEmpty then possible else st.columns }
    else if st.readingFrom then
      if tok.isKw then
        selLoop rest { st with readingFrom := false }
      else
        selLoop rest { st with table := some (String.mk (pyStrip tok.rawText.data)),
                               readingFrom := false }
    else if tok.isWhereTok then
      selLoop rest { st with whereClause := extract_where_clause tok }
    else if tok.isKwNamed "WHERE" then
      match rest with
      | [] => selLoop [] st
      | nxt :: rest2 =>
        match nxt with
        | .whereTok _ =>
          selLoop rest2 { st with whereClause := extract_where_clause nxt }
        | _ =>
          selLoop rest2
            { st with whereClause := parse_where_conditions (String.mk (pyStrip nxt.rawText.data)) }
    else if tok.isKwNamed "ORDER" then
      match rest with
      | [] => selLoop [] st
      | nxt :: rest2 =>
        if nxt.isKwNamed "BY" then
          match rest2 with
          | [] => selLoop [] st
          | t3 :: rest3 => selLoop rest3 { st with orderBy := parse_order_by t3.rawText }
        else
          selLoop rest2 st
    else if tok.isKwNamed "GROUP" then
      match rest with
      | [] => selLoop [] st
      | nxt :: rest2 =>
        if nxt.isKwNamed "BY" then
          match rest2 with
          | [] => selLoop [] st
          | t3 :: rest3 => selLoop rest3 { st with groupBy := parse_group_by t3.rawText }
        else
          selLoop rest2 st
    else if tok.isKwNamed "LIMIT" then
      match rest with
      | [] => selLoop [] st
      | t2 :: rest2 => selLoop rest2 { st with limitVal := parse_limit_value t2.rawText }
    else
      selLoop rest st

/-- Source: `parse_select_statement` (sql_to_mongo.py): filter whitespace
tokens and run the loop; results as the source's return tuple. -/
def parse_select_statement (statement : List SqlTok) :
    List String × Option String × PyDict × List (String × Int) × List String × Option Int :=
  let st := selLoop (statement.filter (fun t => ! t.isWsTok)) {}
  (st.columns, st.table, st.whereClause, st.orderBy, st.groupBy, st.limitVal)

/-! ## sql_to_mongo.py — statement handlers -/

/-- The comma-validation pattern of `_handle_select` and
`sql_select_to_mongo`: `SELECT\s+(.*?)\s+FROM` with IGNORECASE and
DOTALL. -/
def selectFromRx : Rx :=
  .cat [.lit "SELECT" true, wsPlus, .group 1 (.star anyCh true), wsPlus, .lit "FROM" true]

/-- `single_insert_pattern` of `_handle_insert` (sql_to_mongo.py):
`INSERT\s+INTO\s+(\w+)\s*\(([^)]+)\)\s*VALUES\s*\(([^)]+)\)`, IGNORECASE. -/
def single_insert_pattern : Rx :=
  .cat [.lit "INSERT" true, wsPlus, .lit "INTO" true, wsPlus, .group 1 wordPlus, wsStar,
        .lit "(" false, .group 2 (.plus (.cls (fun c => c ≠ ')'))), .lit ")" false, wsStar,
        .lit "VALUES" true, wsStar,
        .lit "(" false, .group 3 (.plus (.cls (fun c => c ≠ ')'))), .lit ")" false]

/-- `simple_insert_pattern` of `_handle_insert`:
`INSERT\s+INTO\s+(\w+)\s*VALUES\s*\(([^)]+)\)`, IGNORECASE. -/
def simple_insert_pattern : Rx :=
  .cat [.lit "INSERT" true, wsPlus, .lit "INTO" true, wsPlus, .group 1 wordPlus, wsStar,
        .lit "VALUES" true, wsStar,
        .lit "(" false, .group 2 (.plus (.cls (fun c => c ≠ ')'))), .lit ")" false]

/-- One parenthesised value row as `multi_insert_pattern` writes it:
`\((?:[^)(]+|\([^)(]*\))*\)`. -/
def parenRow : Rx :=
  .cat [.lit "(" false,
        .star (.alt (.plus (.cls (fun c => c ≠ ')' ∧ c ≠ '(')))
                    (.cat [.lit "(" false, .star (.cls (fun c => c ≠ ')' ∧ c ≠ '(')) false,
                           .lit ")" false])) false,
        .lit ")" false]

/-- `multi_insert_pattern` of `_handle_insert`:
`INSERT\s+INTO\s+(\w+)\s*\(([^)]+)\)\s*VALUES\s*(<row>(?:\s*,\s*<row>)*)`,
IGNORECASE, with `<row>` as in `parenRow`. -/
def multi_insert_pattern : Rx :=
  .cat [.lit "INSERT" true, wsPlus, .lit "INTO" true, wsPlus, .group 1 wordPlus, wsStar,
        .lit "(" false, .group 2 (.plus (.cls (fun c => c ≠ ')'))), .lit ")" false, wsStar,
        .lit "VALUES" true, wsStar,
        .group 3 (.cat [parenRow,
                        .star (.cat [wsStar, .lit "," false, wsStar, parenRow]) false])]

/-- `update_pattern` of `_handle_update` (sql_to_mongo.py):
`UPDATE\s+(\w+)\s+SET\s+(.+?)(?:\s+WHERE\s+(.+?))?(?:\s*;)?$`,
IGNORECASE and DOTALL. -/
def update_sql_pattern : Rx :=
  .cat [.lit "UPDATE" true, wsPlus, .group 1 wordPlus, wsPlus, .lit "SET" true, wsPlus,
        .group 2 (.plusLazy anyCh),
        .opt (.cat [wsPlus, .lit "WHERE" true, wsPlus, .group 3 (.plusLazy anyCh)]),
        .opt (.cat [wsStar, .lit ";" false]), .endAnchor]

/-- `delete_pattern` of `_handle_delete` (sql_to_mongo.py):
`DELETE\s+FROM\s+(\w+)(?:\s+WHERE\s+(.+?))?(?:\s*;)?$`,
IGNORECASE and DOTALL. -/
def delete_sql_pattern : Rx :=
  .cat [.lit "DELETE" true, wsPlus, .lit "FROM" true, wsPlus, .group 1 wordPlus,
        .opt (.cat [wsPlus, .lit "WHERE" true, wsPlus, .group 2 (.plusLazy anyCh)]),
        .opt (.cat [wsStar, .lit ";" false]), .endAnchor]

/-- Python `s.split('=', 1)`: split at the first `=`. -/
def splitEq1 (cs : List Char) : List Char × List Char :=
  let pre := cs.takeWhile (fun c => c ≠ '=')
  (pre, (cs.drop pre.length).drop 1)

/-- Python `s.split('.', 1)`: split at the first `.`. -/
def splitDot1 (cs : List Char) : List Char × List Char :=
  let pre := cs.takeWhile (fun c => c ≠ '.')
  (pre, (cs.drop pre.length).drop 1)

/-- Source: `_handle_insert` (sql_to_mongo.py).  The multi-row pattern is
tried first, then the explicit-columns single row, then the column-less
form whose fields are named positionally; anything else is a
`SyntaxError`.  A row whose value count differs from the column count is a
`ValueError`. -/
def handle_insert_sql (sql_query : String) : Except PyErr String :=
  match rxSearch multi_insert_pattern sql_query.data with
  | some caps =>
    let table_name := String.mk ((capGet caps 1).getD [])
    let columns := (splitOnSub [','] ((capGet caps 2).getD [])).map
      (fun col => String.mk (pyStrip col))
    let values_block := (capGet caps 3).getD []
    let value_sets := findAllParen (values_block.length + 1) values_block
    match value_sets.mapM (fun value_set =>
        let values := (splitOnSub [','] value_set).map
          (fun v => parse_sql_value (String.mk (pyStrip v)))
        if values.length ≠ columns.length then Except.error PyErr.valueError
        else Except.ok ((columns.zip values).foldl (fun d kv => dinsert d kv.1 kv.2) [])) with
    | .error e => .error e
    | .ok documents =>
      match documents with
      | [d] => .ok ("db." ++ table_name ++ ".insertOne(" ++ format_json (.obj d) ++ ")")
      | _ => .ok ("db." ++ table_name ++ ".insertMany(" ++
                  format_json (.arr (documents.map .obj)) ++ ")")
  | Option.none =>
    match rxSearch single_insert_pattern sql_query.data with
    | some caps =>
      let table_name := String.mk ((capGet caps 1).getD [])
      let columns := (splitOnSub [','] ((capGet caps 2).getD [])).map
        (fun col => String.mk (pyStrip col))
      let values := (splitOnSub [','] ((capGet caps 3).getD [])).map
        (fun v => parse_sql_value (String.mk (pyStrip v)))
      if values.length ≠ columns.length then .error .valueError
      else
        .ok ("db." ++ table_name ++ ".insertOne(" ++
             format_json (.obj ((columns.zip values).foldl (fun d kv => dinsert d kv.1 kv.2) []))
             ++ ")")
    | Option.none =>
      match rxSearch simple_insert_pattern sql_query.data with
      | some caps =>
        let table_name := String.mk ((capGet caps 1).getD [])
        let values := (splitOnSub [','] ((capGet caps 2).getD [])).map
          (fun v => parse_sql_value (String.mk (pyStrip v)))
        let document := (values.enum.map
          (fun vi => ("field" ++ String.mk (natToDec (vi.1 + 1)), vi.2)))
        .ok ("db." ++ table_name ++ ".insertOne(" ++
             format_json (.obj (document.foldl (fun d kv => dinsert d kv.1 kv.2) [])) ++ ")")
      | Option.none => .error .syntaxError

/-- Source: `_handle_update` (sql_to_mongo.py).  SET items split on commas
then on the first `=`; an item with no `=` is a `SyntaxError`; the command
is always `updateMany` (“the safer default”), and the update document is
rendered as `{'$set': …}` by the handler's f-string. -/
def handle_update_sql (sql_query : String) : Except PyErr String :=
  match rxSearch update_sql_pattern sql_query.data with
  | Option.none => .error .syntaxError
  | some caps =>
    let table_name := String.mk ((capGet caps 1).getD [])
    let set_clause := pyStrip ((capGet caps 2).getD [])
    let where_clause := capGet caps 3
    match (splitOnSub [','] set_clause).foldlM (fun acc item =>
        if ¬ item.contains '=' then Except.error PyErr.syntaxError
        else
          let fv := splitEq1 item
          Except.ok (dinsert acc (String.mk (pyStrip fv.1))
            (parse_sql_value (String.mk (pyStrip fv.2))))) ([] : PyDict) with
    | .error e => .error e
    | .ok set_items =>
      let filter_query := match where_clause with
        | some w => parse_where_conditions (String.mk w)
        | Option.none => []
      .ok ("db." ++ table_name ++ ".updateMany(" ++ format_json (.obj filter_query) ++
           ", \x7b'$set': " ++ format_json (.obj set_items) ++ "\x7d)")

/-- Source: `_handle_delete` (sql_to_mongo.py).  `deleteOne` when the
filter mentions `_id`, else `deleteMany`. -/
def handle_delete_sql (sql_query : String) : Except PyErr String :=
  match rxSearch delete_sql_pattern sql_query.data with
  | Option.none => .error .syntaxError
  | some caps =>
    let table_name := String.mk ((capGet caps 1).getD [])
    let filter_query := match capGet caps 2 with
      | some w => parse_where_conditions (String.mk w)
      | Option.none => []
    let delete_command :=
      if ¬ filter_query.isEmpty ∧ dhas filter_query "_id" then "deleteOne" else "deleteMany"
    .ok ("db." ++ table_name ++ "." ++ delete_command ++ "(" ++
         format_json (.obj filter_query) ++ ")")

/-- The JOIN pattern of `_handle_join_query` (sql_to_mongo.py), IGNORECASE
and DOTALL, applied with `pattern.match` to the stripped query.  Named
groups are numbered in order: cols=1, tbl1=2, alias1=3, tbl2=4, alias2=5,
t1=6, c1=7, t2=8, c2=9, where=10, order=11, limit=12.  (The leading `^` is
implicit in `pattern.match`.) -/
def join_sql_pattern : Rx :=
  .cat [.lit "SELECT" true, wsPlus, .group 1 (.star anyCh true), wsPlus,
        .lit "FROM" true, wsPlus, .group 2 wordPlus,
        .opt (.cat [wsPlus, .group 3 wordPlus]),
        wsPlus, .lit "JOIN" true, wsPlus, .group 4 wordPlus,
        .opt (.cat [wsPlus, .group 5 wordPlus]),
        wsPlus, .lit "ON" true, wsPlus,
        .group 6 wordPlus, .lit "." false, .group 7 wordPlus,
        wsStar, .lit "=" false, wsStar,
        .group 8 wordPlus, .lit "." false, .group 9 wordPlus,
        .opt (.cat [wsPlus, .lit "WHERE" true, wsPlus, .group 10 (.star anyCh true)]),
        .opt (.cat [wsPlus, .lit "ORDER" true, wsPlus, .lit "BY" true, wsPlus,
                    .group 11 (.star anyCh true)]),
        .opt (.cat [wsPlus, .lit "LIMIT" true, wsPlus, .group 12 (.plus (.cls Char.isDigit))]),
        wsStar, .opt (.lit ";" false), .endAnchor]

/-- Source: `_handle_join_query` (sql_to_mongo.py).  One INNER JOIN with a
single `ON t1.c1 = t2.c2` equality becomes a `$lookup` + `$unwind` pipeline
with optional `$match`, `$project`, `$sort` and `$limit` stages; the result
is the pair (primary collection, pipeline). -/
def handle_join_query (sql_query : String) : Except PyErr (String × List Value) :=
  match rxMatch join_sql_pattern (pyStrip sql_query.data) with
  | Option.none => .error .syntaxError
  | some caps =>
    let cols_str := (capGet caps 1).getD []
    let tbl1 := String.mk ((capGet caps 2).getD [])
    let alias1 := match capGet caps 3 with
      | some a => String.mk a
      | Option.none => tbl1
    let tbl2 := String.mk ((capGet caps 4).getD [])
    let alias2 := match capGet caps 5 with
      | some a => String.mk a
      | Option.none => tbl2
    let c1 := String.mk ((capGet caps 7).getD [])
    let c2 := String.mk ((capGet caps 9).getD [])
    let whereG := capGet caps 10
    let orderG := capGet caps 11
    let limitG := capGet caps 12
    let cols := (splitOnSub [','] cols_str).map (fun c => String.mk (pyStrip c))
    let pipeline : List Value :=
      [.obj [("$lookup", .obj [("from", .str tbl2), ("localField", .str c1),
                               ("foreignField", .str c2), ("as", .str alias2)])],
       .obj [("$unwind", .str ("$" ++ alias2))]]
    let pipeline := match whereG with
      | some w => pipeline ++ [.obj [("$match", .obj (parse_where_conditions (String.mk w)))]]
      | Option.none => pipeline
    let pipeline :=
      if ¬ cols.isEmpty ∧ cols ≠ ["*"] then
        let proj := cols.foldl (fun d col =>
          if col.data.contains '.' then
            let tf := splitDot1 col.data
            if String.mk tf.1 = alias1 then
              dinsert d (tbl1 ++ "." ++ String.mk tf.2) (.int 1)
            else
              dinsert d (tbl2 ++ "." ++ String.mk tf.2) (.int 1)
          else
            dinsert d (tbl1 ++ "." ++ col) (.int 1)) []
        pipeline ++ [.obj [("$project", .obj proj)]]
      else pipeline
    let pipeline := match orderG with
      | some o =>
        let order_list := parse_order_by (String.mk o)
        pipeline ++ [.obj [("$sort",
          .obj (order_list.foldl (fun d fd => dinsert d fd.1 (.int fd.2)) []))]]
      | Option.none => pipeline
    let pipeline := match limitG with
      | some l =>
        match pyInt l with
        | some n => pipeline ++ [.obj [("$limit", .int n)]]
        | Option.none => pipeline
      | Option.none => pipeline
    .ok (tbl1, pipeline)

/-- Source: `_handle_select` (sql_to_mongo.py).  A query containing the
word JOIN goes to the join handler and renders as an aggregate; otherwise
the SELECT column text must be `*`, a single word or comma-separated
(`SyntaxError`), the parsed column list must be non-empty and the table
known (`SyntaxError`/`ValueError`), and a GROUP BY renders as an aggregate
of the single `$group` stage, else as `find`. -/
def handle_select (statement : List SqlTok) (sql_query : String) : Except PyErr String :=
  if containsWordJoin Option.none sql_query.data then
    match handle_join_query sql_query with
    | .ok r => .ok (format_mongo_aggregate r.1 r.2)
    | .error e => .error e
  else
    let commaBad : Bool := match rxSearch selectFromRx sql_query.data with
      | some caps =>
        let cols_txt := pyStrip ((capGet caps 1).getD [])
        ! cols_txt.isEmpty && cols_txt ≠ ['*'] && ! cols_txt.contains ','
          && (pySplitWs cols_txt).length > 1
      | Option.none => false
    if commaBad then .error .syntaxError
    else
      match parse_select_statement statement with
      | (cols, table, whereC, order, group, limit) =>
        if cols.isEmpty ∨ cols.all (fun c => c = "") then .error .syntaxError
        else
          match table with
          | Option.none => .error .valueError
          | some t =>
            if t = "" then .error .valueError
            else
              let q := build_mongo_query t cols whereC order group limit
              match q.group with
              | some g => .ok (format_mongo_aggregate q.collection [g])
              | Option.none => .ok (format_mongo_find q)

/-- Source: `sql_to_mongo` (sql_to_mongo.py).  The multi-statement check of
the source (`len(sqlparse.parse(q)) != 1` raises `SyntaxError`) sits at the
text boundary; the embedding receives the single parsed statement's token
stream together with the raw text.  Dispatch is on
`statement.get_type().upper()`; an unrecognised type raises
`NotImplementedError`. -/
def sql_to_mongo (statement : List SqlTok) (sql_query : String) : Except PyErr String :=
  let statement_type := get_type statement
  if statement_type = "SELECT" then handle_select statement sql_query
  else if statement_type = "INSERT" then handle_insert_sql sql_query
  else if statement_type = "UPDATE" then handle_update_sql sql_query
  else if statement_type = "DELETE" then handle_delete_sql sql_query
  else .error .notImplementedError

/-! ## mongo_to_sql.py — decoding object literals

`_parse_mongo_json` first rewrites the relaxed shell dialect (bare operator
names, bare keys), then decodes with `json.loads`, and on failure rewrites
the JavaScript keywords and retries with `ast.literal_eval`; any remaining
failure is a `ValueError`.  `jsonDecode` and `pyLitDecode` model the two
decoders on the literal forms the translator meets (objects, arrays,
strings, integers and simple floats, the keyword constants); both are
strict about trailing input, as the originals are.  Recursion is by fuel:
`parse_mongo_json` computes one shared budget of `(length + 64) * 64` scan
steps, far above what its rewrite passes can consume (each pass advances at
least one character per step and at most doubles the text, and the claims'
inputs are short). -/
namespace MongoToSql

/-- One JSON/Python escape sequence after a backslash; returns the decoded
character and the rest. -/
def escChar : List Char → Option (Char × List Char)
  | 'n' :: r => some ('\n', r)
  | 't' :: r => some ('\t', r)
  | 'r' :: r => some ('\r', r)
  | 'b' :: r => some (Char.ofNat 8, r)
  | 'f' :: r => some (Char.ofNat 12, r)
  | '"' :: r => some ('"', r)
  | '\'' :: r => some ('\'', r)
  | '/' :: r => some ('/', r)
  | '\\' :: r => some ('\\', r)
  | _ => Option.none

/-- Body of a quoted string up to the closing quote `q`; escapes decoded by
`escChar` (`\uXXXX` is not modelled; no input of the claims uses it). -/
def quotedBody (q : Char) : Nat → List Char → Option (List Char × List Char)
  | 0, _ => Option.none
  | _ + 1, [] => Option.none
  | fuel + 1, c :: r =>
    if c = q then some ([], r)
    else if c = '\\' then
      match escChar r with
      | some (d, r2) =>
        match quotedBody q fuel r2 with
        | some (s, rest) => some (d :: s, rest)
        | Option.none => Option.none
      | Option.none => Option.none
    else
      match quotedBody q fuel r with
      | some (s, rest) => some (c :: s, rest)
      | Option.none => Option.none

/-- A decimal number literal as `json.loads` and `ast.literal_eval` accept
it on the translator's inputs: optional minus, digits, optional fractional
digits.  Returns the value and the rest. -/
def numLit (cs : List Char) : Option (Value × List Char) :=
  let (neg, body) := match cs with
    | '-' :: r => (true, r)
    | _ => (false, cs)
  let ds := body.takeWhile Char.isDigit
  if ds.isEmpty then Option.none
  else
    let rest := body.drop ds.length
    match rest with
    | '.' :: r2 =>
      let fs := r2.takeWhile Char.isDigit
      if fs.isEmpty then Option.none
      else
        some (.float (String.mk ((if neg then ['-'] else []) ++ ds ++ '.' :: fs)),
              r2.drop fs.length)
    | _ =>
      let n : Int := (digitsVal ds : Int)
      some (.int (if neg then -n else n), rest)

mutual

/-- One JSON value (strict: double-quoted strings, `true`/`false`/`null`). -/
def jsonValue : Nat → List Char → Option (Value × List Char)
  | 0, _ => Option.none
  | fuel + 1, cs =>
    let cs := lstripP isWs cs
    match cs with
    | '\x7b' :: r => jsonMembers fuel (lstripP isWs r) []
    | '[' :: r => jsonElems fuel (lstripP isWs r) []
    | '"' :: r =>
      match quotedBody '"' fuel r with
      | some (s, rest) => some (.str (String.mk s), rest)
      | Option.none => Option.none
    | 't' :: _ =>
      if isPrefixL "true".data cs then some (.bool true, cs.drop 4) else Option.none
    | 'f' :: _ =>
      if isPrefixL "false".data cs then some (.bool false, cs.drop 5) else Option.none
    | 'n' :: _ =>
      if isPrefixL "null".data cs then some (.none, cs.drop 4) else Option.none
    | _ => numLit cs

/-- Members of a JSON object after the opening brace (leading whitespace
already skipped); duplicate keys overwrite as `json.loads` does. -/
def jsonMembers : Nat → List Char → PyDict → Option (Value × List Char)
  | 0, _, _ => Option.none
  | _ + 1, '\x7d' :: r, acc => some (.obj acc, r)
  | fuel + 1, cs, acc =>
    match cs with
    | '"' :: r =>
      match quotedBody '"' fuel r with
      | some (k, r2) =>
        match lstripP isWs r2 with
        | ':' :: r3 =>
          match jsonValue fuel r3 with
          | some (v, r4) =>
            let acc := dinsert acc (String.mk k) v
            match lstripP isWs r4 with
            | ',' :: r5 => jsonMembers fuel (lstripP isWs r5) acc
            | '\x7d' :: r5 => some (.obj acc, r5)
            | _ => Option.none
          | Option.none => Option.none
        | _ => Option.none
      | Option.none => Option.none
    | _ => Option.none

/-- Elements of a JSON array after the opening bracket. -/
def jsonElems : Nat → List Char → List Value → Option (Value × List Char)
  | 0, _, _ => Option.none
  | _ + 1, ']' :: r, acc => some (.arr acc.reverse, r)
  | fuel + 1, cs, acc =>
    match jsonValue fuel cs with
    | some (v, r) =>
      match lstripP isWs r with
      | ',' :: r2 => jsonElems fuel (lstripP isWs r2) (v :: acc)
      | ']' :: r2 => some (.arr (v :: acc).reverse, r2)
      | _ => Option.none
    | Option.none => Option.none

end

/-- `json.loads`: one value, nothing but whitespace after it. -/
def jsonDecode (cs : List Char) : Option Value :=
  match jsonValue (cs.length + 1) cs with
  | some (v, rest) => if (lstripP isWs rest).isEmpty then some v else Option.none
  | Option.none => Option.none

mutual

/-- One Python literal (`ast.literal_eval` after the keyword rewrite):
single- or double-quoted strings, `True`/`False`/`None`, numbers, dicts
and lists. -/
def pyLitValue : Nat → List Char → Option (Value × List Char)
  | 0, _ => Option.none
  | fuel + 1, cs =>
    let cs := lstripP isWs cs
    match cs with
    | '\x7b' :: r => pyLitMembers fuel (lstripP isWs r) []
    | '[' :: r => pyLitElems fuel (lstripP isWs r) []
    | '"' :: r =>
      match quotedBody '"' fuel r with
      | some (s, rest) => some (.str (String.mk s), rest)
      | Option.none => Option.none
    | '\'' :: r =>
      match quotedBody '\'' fuel r with
      | some (s, rest) => some (.str (String.mk s), rest)
      | Option.none => Option.none
    | 'T' :: _ =>
      if isPrefixL "True".data cs then some (.bool true, cs.drop 4) else Option.none
    | 'F' :: _ =>
      if isPrefixL "False".data cs then some (.bool false, cs.drop 5) else Option.none
    | 'N' :: _ =>
      if isPrefixL "None".data cs then some (.none, cs.drop 4) else Option.none
    | _ => numLit cs

/-- Members of a Python dict literal; only string keys are modelled (every
key the translator's inputs produce is a string). -/
def pyLitMembers : Nat → List Char → PyDict → Option (Value × List Char)
  | 0, _, _ => Option.none
  | _ + 1, '\x7d' :: r, acc => some (.obj acc, r)
  | fuel + 1, cs, acc =>
    match pyLitValue fuel cs with
    | some (.str k, r) =>
      match lstripP isWs r with
      | ':' :: r2 =>
        match pyLitValue fuel r2 with
        | some (v, r3) =>
          let acc := dinsert acc k v
          match lstripP isWs r3 with
          | ',' :: r4 => pyLitMembers fuel (lstripP isWs r4) acc
          | '\x7d' :: r4 => some (.obj acc, r4)
          | _ => Option.none
        | Option.none => Option.none
      | _ => Option.none
    | _ => Option.none

/-- Elements of a Python list literal. -/
def pyLitElems : Nat → List Char → List Value → Option (Value × List Char)
  | 0, _, _ => Option.none
  | _ + 1, ']' :: r, acc => some (.arr acc.reverse, r)
  | fuel + 1, cs, acc =>
    match pyLitValue fuel cs with
    | some (v, r) =>
      match lstripP isWs r with
      | ',' :: r2 => pyLitElems fuel (lstripP isWs r2) (v :: acc)
      | ']' :: r2 => some (.arr (v :: acc).reverse, r2)
      | _ => Option.none
    | Option.none => Option.none

end

/-- `ast.literal_eval`: one literal, nothing but whitespace around it. -/
def pyLitDecode (cs : List Char) : Option Value :=
  match pyLitValue (cs.length + 1) cs with
  | some (v, rest) => if (lstripP isWs rest).isEmpty then some v else Option.none
  | Option.none => Option.none

/-- One substitution `re.sub(r'(\s*)NAME(\s*):', r'\1"$NAME"\2:', s)` from
step 1 of `_parse_mongo_json`: every occurrence of the bare operator name
followed by optional whitespace and a colon is quoted and `$`-prefixed
(there is no word boundary in the pattern, so the name may be matched
inside a longer word, as in the source).  Scanning resumes after the
matched colon. -/
def subOpF (name : List Char) : Nat → List Char → List Char
  | 0, cs => cs
  | _ + 1, [] => []
  | fuel + 1, c :: tl =>
    if isPrefixL name (c :: tl) then
      let after := (c :: tl).drop name.length
      let wsRun := after.takeWhile isWs
      match after.drop wsRun.length with
      | ':' :: rest =>
        '"' :: '$' :: (name ++ '"' :: (wsRun ++ ':' :: subOpF name fuel rest))
      | _ => c :: subOpF name fuel tl
    else c :: subOpF name fuel tl

/-- All ten bare-operator substitutions of `_parse_mongo_json` step 1, in
source order.  `fuel` is a shared scan budget (see `parse_mongo_json`). -/
def applyOperatorPatterns (fuel : Nat) (cs : List Char) : List Char :=
  ["gt", "gte", "lt", "lte", "eq", "ne", "in", "nin", "or", "and"].foldl
    (fun s name => subOpF name.data fuel s) cs

/-- Step 2 of `_parse_mongo_json`: `re.sub(r'(?<!")(\w+)(?=\s*:)', …)`.
A maximal word run followed by optional whitespace and a colon is wrapped
in double quotes when the character before it is not a double quote; when
it is, the regex still matches from the run's second character (the
lookbehind then sees a word character), reproducing the source's behaviour
on malformed keys.  `prev` is the character before the current position. -/
def quoteKeysF : Nat → Option Char → List Char → List Char
  | 0, _, cs => cs
  | _ + 1, _, [] => []
  | fuel + 1, prev, c :: tl =>
    if isWordChar c then
      let run := (c :: tl).takeWhile isWordChar
      let rest := (c :: tl).drop run.length
      let colonOk := match rest.dropWhile isWs with
        | ':' :: _ => true
        | _ => false
      let last := run.getLastD c
      if colonOk && prev != some '"' then
        '"' :: (run ++ '"' :: quoteKeysF fuel (some last) rest)
      else if colonOk && decide (run.length ≥ 2) then
        c :: '"' :: (run.drop 1 ++ '"' :: quoteKeysF fuel (some last) rest)
      else
        run ++ quoteKeysF fuel (some last) rest
    else
      c :: quoteKeysF fuel (some c) tl

/-- Step 3 of `_parse_mongo_json`: for each `$`-prefixed operator,
`replace(f'{op}:', f'"{op}":')` (the preceding no-op
`replace(f'"{op}"', f'"{op}"')` of the source is the identity). -/
def applyDollarQuoting (fuel : Nat) (cs : List Char) : List Char :=
  ["$gt", "$gte", "$lt", "$lte", "$eq", "$ne", "$in", "$nin", "$regex", "$exists",
   "$or", "$and"].foldl
    (fun s op => replaceAllF (op ++ ":").data ("\"" ++ op ++ "\":").data fuel s) cs

/-- The rewrite passes of `_parse_mongo_json` (mongo_to_sql.py), composed in
the source's order: bare operators, then bare keys, then `$`-operators. -/
def parse_mongo_json_rewritten (fuel : Nat) (s : List Char) : List Char :=
  applyDollarQuoting fuel (quoteKeysF fuel Option.none (applyOperatorPatterns fuel s))

/-- The `ast.literal_eval` fallback of `_parse_mongo_json` (mongo_to_sql.py):
rewrite the JavaScript keyword constants to Python's and decode as a Python
literal; a second failure is the source's `raise ValueError`. -/
def parse_mongo_json_fallback (fuel : Nat) (s : List Char) : Except PyErr Value :=
  match pyLitDecode (replaceAllF "null".data "None".data fuel
      (replaceAllF "false".data "False".data fuel
        (replaceAllF "true".data "True".data fuel s))) with
  | some v => .ok v
  | Option.none => .error .valueError

/-- The body of `_parse_mongo_json` after the empty-input check: apply the
shell-dialect rewrites, try `json.loads`, and fall back to
`ast.literal_eval` on the keyword-rewritten text. -/
def parse_mongo_json_tail (fuel : Nat) (s : List Char) : Except PyErr Value :=
  match jsonDecode (parse_mongo_json_rewritten fuel s) with
  | some v => .ok v
  | Option.none => parse_mongo_json_fallback fuel (parse_mongo_json_rewritten fuel s)

/-- Source: `_parse_mongo_json` (mongo_to_sql.py).  Strip; empty or `{}`
short-circuits to the empty dict; rewrite bare operators, bare keys and
`$`-operators; decode with `json.loads`; on failure rewrite
`true`/`false`/`null` to `True`/`False`/`None` (everywhere in the text,
inside string values included) and retry with `ast.literal_eval`; any
remaining failure raises `ValueError`. -/
def parse_mongo_json (js_obj_str : String) : Except PyErr Value :=
  if (pyStrip js_obj_str.data).isEmpty ∨ pyStrip js_obj_str.data = "\x7b\x7d".data then
    .ok (.obj [])
  else
    parse_mongo_json_tail (((pyStrip js_obj_str.data).length + 64) * 64)
      (pyStrip js_obj_str.data)

/-- Source: `_safe_eval` (mongo_to_sql.py): an alias of
`_parse_mongo_json`. -/
def safe_eval (js_obj_str : String) : Except PyErr Value :=
  parse_mongo_json js_obj_str

/-- Source: `_balance_brackets` (mongo_to_sql.py): append the missing
closing braces and brackets counted over the whole text. -/
def balance_brackets (js_str : List Char) : List Char :=
  let open_curly := (js_str.filter (fun c => c = '\x7b')).length
  let close_curly := (js_str.filter (fun c => c = '\x7d')).length
  let open_square := (js_str.filter (fun c => c = '[')).length
  let close_square := (js_str.filter (fun c => c = ']')).length
  let js_str := if open_curly > close_curly then
    js_str ++ List.replicate (open_curly - close_curly) '\x7d' else js_str
  if open_square > close_square then
    js_str ++ List.replicate (open_square - close_square) ']' else js_str

/-- Source: `_split_respecting_brackets` (mongo_to_sql.py): split on
top-level commas, tracking one combined nesting count for `{}`, `[]` and
`()`; parts are stripped, and a trailing empty part is dropped. -/
def split_respecting_brackets (text : List Char) : List (List Char) :=
  let step := text.foldl (fun (st : List (List Char) × List Char × Int) c =>
    let (parts, current, depth) := st
    let depth := if c = '\x7b' ∨ c = '[' ∨ c = '(' then depth + 1
      else if c = '\x7d' ∨ c = ']' ∨ c = ')' then depth - 1
      else depth
    if c = ',' ∧ depth = 0 then (parts ++ [pyStrip current.reverse], [], depth)
    else (parts, c :: current, depth)) ([], [], 0)
  let (parts, current, _) := step
  if current.isEmpty then parts else parts ++ [pyStrip current.reverse]

/-! ## mongo_to_sql.py — the find pattern

`find_pattern` is
`db\.(\w+)\.find\(([\s\S]*?)\)(?:\.sort\(([\s\S]*?)\))?(?:\.limit\((\d+)\))?(?:\.skip\((\d+)\))?`.
Its structure makes the backtracking behaviour simple enough to model
directly: the lazy group 2 always ends at the first `)` after `.find(`
(everything after `\)` in the pattern is optional, so the lazy repetition
never has to grow past it); each optional tail group either matches
greedily at the current position or is skipped whole (an optional group
cannot fail); and `(\d+)` is a maximal digit run that must be followed by
`)` (a shorter run would end at a digit, so no backtracking arises). -/

/-- The result of a `find_pattern` match: collection, the text between
`find(` and `)`, and the optional sort text, limit digits and skip
digits. -/
structure FindGroups where
  collection : List Char
  params : List Char
  sortS : Option (List Char)
  limitS : Option (List Char)
  skipS : Option (List Char)

/-- `(?:\.sort\(([\s\S]*?)\))?` at the current position. -/
def tryParenTail (callname : String) (cs : List Char) : Option (List Char) × List Char :=
  if isPrefixL callname.data cs then
    let r := cs.drop callname.data.length
    let inner := r.takeWhile (fun c => c ≠ ')')
    match r.drop inner.length with
    | ')' :: rest => (some inner, rest)
    | _ => (Option.none, cs)
  else (Option.none, cs)

/-- `(?:\.limit\((\d+)\))?` (and `.skip`) at the current position. -/
def tryDigitTail (callname : String) (cs : List Char) : Option (List Char) × List Char :=
  if isPrefixL callname.data cs then
    let r := cs.drop callname.data.length
    let ds := r.takeWhile Char.isDigit
    if ds.isEmpty then (Option.none, cs)
    else
      match r.drop ds.length with
      | ')' :: rest => (some ds, rest)
      | _ => (Option.none, cs)
  else (Option.none, cs)

/-- `find_pattern` matched at the start of `cs`. -/
def findMatchAt (cs : List Char) : Option FindGroups :=
  if isPrefixL "db.".data cs then
    let r := cs.drop 3
    let col := r.takeWhile isWordChar
    if col.isEmpty then Option.none
    else
      let r := r.drop col.length
      if isPrefixL ".find(".data r then
        let r := r.drop 6
        let params := r.takeWhile (fun c => c ≠ ')')
        match r.drop params.length with
        | ')' :: r2 =>
          let (sortS, r3) := tryParenTail ".sort(" r2
          let (limitS, r4) := tryDigitTail ".limit(" r3
          let (skipS, _) := tryDigitTail ".skip(" r4
          some ⟨col, params, sortS, limitS, skipS⟩
        | _ => Option.none
      else Option.none
  else Option.none

/-- `re.search(find_pattern, s)`: leftmost start position that matches. -/
def findSearch : List Char → Option FindGroups
  | [] => findMatchAt []
  | c :: tl =>
    match findMatchAt (c :: tl) with
    | some g => some g
    | Option.none => findSearch tl

/-! ## mongo_to_sql.py — the query dict and SQL rendering -/

/-- The `mongo_obj` dict flowing from the mongo-side parsers into
`_mongo_find_to_sql`: collection, parsed filter, optional projection,
sort items, limit and skip (still as parsed values, validated at render
time), group stage and aggregation pipeline. -/
structure MongoObj where
  collection : String
  find : Value := .obj []
  projection : Option Value := Option.none
  sort : Option (List (String × Value)) := Option.none
  limit : Option Value := Option.none
  skip : Option Value := Option.none
  group : Option Value := Option.none
  pipeline : Option (List Value) := Option.none

/-- Source: `_escape_quotes` (mongo_to_sql.py): double every single
quote. -/
def escape_quotes (s : String) : String :=
  String.mk (replaceAll ['\''] ['\'', '\''] s.data)

/-- Source: `_quote_if_needed` (mongo_to_sql.py).  `None` renders as
`NULL`, numbers (booleans included, as `isinstance(True, int)` holds)
unquoted via `str()`, everything else single-quoted with quotes
escaped. -/
def quote_if_needed : Value → String
  | .none => "NULL"
  | .int n => String.mk (intToDec n)
  | .float raw => raw
  | .bool b => if b then "True" else "False"
  | v => "'" ++ escape_quotes (pyStr v) ++ "'"

/-- Source: `_convert_operator` (mongo_to_sql.py).  `$eq`/`$ne` against
`None` give `IS [NOT] NULL`; `$regex` becomes `LIKE` with `%` at the end
not anchored (`^`/`$` anchors are stripped); empty `$in`/`$nin` give the
constants `FALSE`/`TRUE`; `$exists` tests truthiness; unknown operators
render a comment.  `len()` of an unsized value (a number as the `$in`
argument) is a `TypeError`. -/
def convert_operator (field op : String) (val : Value) : Except PyErr String :=
  let isNone := match val with
    | .none => true
    | _ => false
  if isNone && op = "$eq" then .ok (field ++ " IS NULL")
  else if isNone && op = "$ne" then .ok (field ++ " IS NOT NULL")
  else
    let val_str : String := match val with
      | .none => "NULL"
      | .int n => String.mk (intToDec n)
      | .float raw => raw
      | .bool b => if b then "True" else "False"
      | .arr xs => joinSep ", " (xs.map quote_if_needed)
      | v => "'" ++ escape_quotes (pyStr v) ++ "'"
    let op_map : List (String × String) :=
      [("$gt", ">"), ("$gte", ">="), ("$lt", "<"), ("$lte", "<="),
       ("$eq", "="), ("$ne", "<>"), ("$regex", "LIKE")]
    match op_map.lookup op with
    | some sql_op =>
      if val_str = "NULL" ∧ sql_op = "=" then .ok (field ++ " IS NULL")
      else if val_str = "NULL" ∧ sql_op = "<>" then .ok (field ++ " IS NOT NULL")
      else if op = "$regex" then
        let pattern := (pyStr val).data
        if isPrefixL ['^'] pattern then
          .ok (field ++ " LIKE '" ++ escape_quotes (String.mk (pattern.drop 1)) ++ "%'")
        else if pattern.getLast? = some '$' then
          .ok (field ++ " LIKE '%" ++ escape_quotes (String.mk pattern.dropLast) ++ "'")
        else
          .ok (field ++ " LIKE '%" ++ escape_quotes (String.mk pattern) ++ "%'")
      else .ok (field ++ " " ++ sql_op ++ " " ++ val_str)
    | Option.none =>
      if op = "$in" then
        if ¬ pyTruthy val then .ok "FALSE"
        else
          match val with
          | .arr _ | .str _ | .obj _ => .ok (field ++ " IN (" ++ val_str ++ ")")
          | _ => .error .typeError
      else if op = "$nin" then
        if ¬ pyTruthy val then .ok "TRUE"
        else
          match val with
          | .arr _ | .str _ | .obj _ => .ok (field ++ " NOT IN (" ++ val_str ++ ")")
          | _ => .error .typeError
      else if op = "$exists" then
        if pyTruthy val then .ok (field ++ " IS NOT NULL") else .ok (field ++ " IS NULL")
      else
        .ok (field ++ " /*unknown op " ++ op ++ "*/ " ++ val_str)

/-- Source: `_build_basic_conditions` (mongo_to_sql.py).  Operator dicts go
through `_convert_operator`; scalars are direct equality, with `None` as
`IS NULL` and numbers (booleans included) unquoted. -/
def build_basic_conditions (condition_dict : List (String × Value)) : Except PyErr String := do
  let clauses ← condition_dict.foldlM (fun (acc : List String) fv => do
    let (field, expr) := fv
    match expr with
    | .obj ops =>
      ops.foldlM (fun acc2 ov => do
        let clause ← convert_operator field ov.1 ov.2
        pure (if clause ≠ "" then acc2 ++ [clause] else acc2)) acc
    | .int n => pure (acc ++ [field ++ " = " ++ String.mk (intToDec n)])
    | .float raw => pure (acc ++ [field ++ " = " ++ raw])
    | .bool b => pure (acc ++ [field ++ " = " ++ (if b then "True" else "False")])
    | .none => pure (acc ++ [field ++ " IS NULL"])
    | v => pure (acc ++ [field ++ " = '" ++ escape_quotes (pyStr v) ++ "'"])) []
  pure (joinSep " AND " clauses)

/-- Python iteration over a value (`for sub in v`): lists yield elements,
strings their characters, dicts their keys; other values raise
`TypeError`. -/
def pyIter : Value → Except PyErr (List Value)
  | .arr xs => .ok xs
  | .str s => .ok (s.data.map (fun c => .str (String.mk [c])))
  | .obj kvs => .ok (kvs.map (fun kv => .str kv.1))
  | _ => .error .typeError

mutual

/-- Nesting depth of a value, used as fuel for `build_where_sqlF` (dict
keys re-entered as fresh strings need one extra level). -/
def vDepth : Value → Nat
  | .arr xs => vDepthList xs + 1
  | .obj kvs => vDepthDict kvs + 1
  | _ => 1

def vDepthList : List Value → Nat
  | [] => 0
  | v :: rest => max (vDepth v) (vDepthList rest)

def vDepthDict : List (String × Value) → Nat
  | [] => 0
  | kv :: rest => max (vDepth kv.2) (vDepthDict rest)

end

/-- Source: `_build_where_sql` (mongo_to_sql.py).  Falsy filters give the
empty condition; a dict with `$and`/`$or` joins the recursively built
sub-conditions in parentheses; other dicts are basic conditions; a
top-level list joins with AND.  Fuel-recursive: the wrapper passes
`depth + 2`, which the recursion never exhausts. -/
def build_where_sqlF : Nat → Value → Except PyErr String
  | 0, _ => .error .typeError
  | fuel + 1, find_filter =>
    if ¬ pyTruthy find_filter then .ok ""
    else
      match find_filter with
      | .obj kvs =>
        if dhas kvs "$and" then do
          let subs ← pyIter ((dget kvs "$and").getD .none)
          let conditions ← subs.mapM (build_where_sqlF fuel)
          pure ("(" ++ joinSep ") AND (" (conditions.filter (fun c => c ≠ "")) ++ ")")
        else if dhas kvs "$or" then do
          let subs ← pyIter ((dget kvs "$or").getD .none)
          let conditions ← subs.mapM (build_where_sqlF fuel)
          pure ("(" ++ joinSep ") OR (" (conditions.filter (fun c => c ≠ "")) ++ ")")
        else build_basic_conditions kvs
      | .arr xs => do
        let subclauses ← xs.mapM (build_where_sqlF fuel)
        pure ("(" ++ joinSep ") AND (" (subclauses.filter (fun c => c ≠ "")) ++ ")")
      | _ => .ok ""

/-- Source: `_build_where_sql` (see `build_where_sqlF`). -/
def build_where_sql (find_filter : Value) : Except PyErr String :=
  build_where_sqlF (vDepth find_filter + 2) find_filter

/-- Python `direction == 1` on a parsed sort direction (`True == 1` holds;
a float `1.0` would also compare equal in Python but floats are carried as
text here and no input produces one). -/
def valEq1 : Value → Bool
  | .int 1 => true
  | .bool true => true
  | _ => false

/-- Source: `_build_order_by_sql` (mongo_to_sql.py). -/
def build_order_by_sql (sort_list : List (String × Value)) : String :=
  if sort_list.isEmpty then ""
  else
    joinSep ", " (sort_list.map (fun fd =>
      fd.1 ++ " " ++ (if valEq1 fd.2 then "ASC" else "DESC")))

/-- Python `val not in (0, 1)` on a projection value (`True == 1` and
`False == 0` hold, so booleans pass; floats are carried as text here and no
claim exercises a float projection). -/
def valIn01 : Value → Bool
  | .int 0 => true
  | .int 1 => true
  | .bool _ => true
  | _ => false

/-- Source: `_handle_join_pipeline` (mongo_to_sql.py).  A pipeline whose
first stage is `$lookup` renders as `SELECT … FROM t JOIN joined ON
t.local = joined.foreign` with optional WHERE/ORDER BY/LIMIT from later
`$match`/`$sort`/`$limit` stages and columns from a `$project` stage
(columns already qualified by the joined collection pass through, the rest
are qualified by the primary table). -/
def handle_join_pipeline (mongo_obj : MongoObj) : Except PyErr String := do
  let table := mongo_obj.collection
  let pipeline := mongo_obj.pipeline.getD []
  if pipeline.isEmpty then .error .valueError
  else
    let lookup := match pipeline with
      | .obj kvs :: _ => dget kvs "$lookup"
      | _ => Option.none
    match lookup with
    | Option.none => .error .valueError
    | some lk =>
      match lk with
      | .obj lkkvs =>
        let joinedV := (dget lkkvs "from").getD .none
        let localV := (dget lkkvs "localField").getD .none
        let foreignV := (dget lkkvs "foreignField").getD .none
        if ¬ (pyTruthy joinedV ∧ pyTruthy localV ∧ pyTruthy foreignV) then .error .valueError
        else
          let joined := pyStr joinedV
          let localF := pyStr localV
          let foreignF := pyStr foreignV
          let projStage : Option Value := pipeline.findSome? (fun st =>
            match st with
            | .obj kvs => dget kvs "$project"
            | _ => Option.none)
          let select_cols ← match projStage with
            | some (.obj proj) =>
              pure (joinSep ", " (proj.map (fun kv =>
                if isPrefixL (joined ++ ".").data kv.1.data then kv.1
                else table ++ "." ++ kv.1)))
            | some .none => pure (table ++ ".*, " ++ joined ++ ".*")
            | some _ => .error .typeError
            | Option.none => pure (table ++ ".*, " ++ joined ++ ".*")
          let sql := "SELECT " ++ select_cols ++ " FROM " ++ table ++ " " ++
            "JOIN " ++ joined ++ " ON " ++ table ++ "." ++ localF ++ " = " ++
            joined ++ "." ++ foreignF
          let matchStage : Option Value := pipeline.findSome? (fun st =>
            match st with
            | .obj kvs => dget kvs "$match"
            | _ => Option.none)
          let sql ← match matchStage with
            | some m => do
              let where_sql ← build_where_sql m
              pure (if where_sql ≠ "" then sql ++ " WHERE " ++ where_sql else sql)
            | Option.none => pure sql
          let sortStage : Option Value := pipeline.findSome? (fun st =>
            match st with
            | .obj kvs => dget kvs "$sort"
            | _ => Option.none)
          let sql := match sortStage with
            | some (.obj skvs) =>
              let order_sql := build_order_by_sql skvs
              if order_sql ≠ "" then sql ++ " ORDER BY " ++ order_sql else sql
            | _ => sql
          let limitStage : Option Value := pipeline.findSome? (fun st =>
            match st with
            | .obj kvs => dget kvs "$limit"
            | _ => Option.none)
          let sql := match limitStage with
            | some (.int n) => sql ++ " LIMIT " ++ String.mk (intToDec n)
            | _ => sql
          pure (sql ++ ";")
      | _ => .error .typeError

/-- Source: `_mongo_find_to_sql` (mongo_to_sql.py).  A `group` entry
renders as `SELECT keys, COUNT(*) … GROUP BY keys`; a `pipeline` entry is
delegated to the join handler; otherwise projection gives the column list
(fields mapped to 1), the filter the WHERE clause, sort the ORDER BY, and
limit/skip the LIMIT/OFFSET tail, with a dialect-maximum `LIMIT
18446744073709551615` emitted when only skip is positive. -/
def mongo_find_to_sql (mongo_obj : MongoObj) : Except PyErr String := do
  match mongo_obj.group with
  | some g =>
    let grp : Value := match g with
      | .obj kvs => (dget kvs "$group").getD (.obj [])
      | _ => .obj []
    let idv : Value := match grp with
      | .obj gkvs => (dget gkvs "_id").getD (.obj [])
      | _ => .obj []
    match idv with
    | .obj idkvs =>
      if idkvs.isEmpty then .error .valueError
      else
        let cols_str := joinSep ", " (idkvs.map (fun kv => kv.1))
        let sql := "SELECT " ++ cols_str ++ ", COUNT(*) FROM " ++ mongo_obj.collection
        let where_sql ← build_where_sql mongo_obj.find
        let sql := if where_sql ≠ "" then sql ++ " WHERE " ++ where_sql else sql
        let order_sql := build_order_by_sql (mongo_obj.sort.getD [])
        let sql := if order_sql ≠ "" then
            sql ++ " GROUP BY " ++ cols_str ++ " ORDER BY " ++ order_sql
          else sql ++ " GROUP BY " ++ cols_str
        let sql := match mongo_obj.limit with
          | some (.int l) => if l > 0 then sql ++ " LIMIT " ++ String.mk (intToDec l) else sql
          | _ => sql
        pure (sql ++ ";")
    | _ => .error .valueError
  | Option.none =>
  match mongo_obj.pipeline with
  | some _ => handle_join_pipeline mongo_obj
  | Option.none =>
    let table := mongo_obj.collection
    let find_filter := mongo_obj.find
    let projection := (mongo_obj.projection).getD (.obj [])
    let sort_clause := mongo_obj.sort.getD []
    -- `if 'projection' in mongo_obj:` validation
    match mongo_obj.projection with
    | some p =>
      match p with
      | .obj kvs =>
        if kvs.any (fun kv => ! valIn01 kv.2) then .error .valueError
        else pure ()
      | _ => .error .valueError
    | Option.none => pure ()
    -- column list from the projection
    let columns := match projection with
      | .obj kvs =>
        if ¬ kvs.isEmpty then
          let col_list := (kvs.filter (fun kv => valEq1 kv.2)).map (fun kv => kv.1)
          if ¬ col_list.isEmpty then joinSep ", " col_list else "*"
        else "*"
      | _ => "*"
    let where_sql ← build_where_sql find_filter
    -- limit/skip validation (`not isinstance(limit_val, int)`)
    let limit_val : Option Int ← match mongo_obj.limit with
      | some (.int l) => pure (some l)
      | some (.bool b) => pure (some (if b then 1 else 0))
      | some _ => .error .valueError
      | Option.none => pure Option.none
    let skip_val : Option Int ← match mongo_obj.skip with
      | some (.int l) => pure (some l)
      | some (.bool b) => pure (some (if b then 1 else 0))
      | some _ => .error .valueError
      | Option.none => pure Option.none
    let order_sql := build_order_by_sql sort_clause
    let sql := "SELECT " ++ columns ++ " FROM " ++ table
    let sql := if where_sql ≠ "" then sql ++ " WHERE " ++ where_sql else sql
    let sql := if order_sql ≠ "" then sql ++ " ORDER BY " ++ order_sql else sql
    let sql := match limit_val with
      | some l =>
        if l > 0 then
          let sql := sql ++ " LIMIT " ++ String.mk (intToDec l)
          match skip_val with
          | some s => if s > 0 then sql ++ " OFFSET " ++ String.mk (intToDec s) else sql
          | Option.none => sql
        else
          match skip_val with
          | some s =>
            if s > 0 then sql ++ " LIMIT 18446744073709551615 OFFSET " ++ String.mk (intToDec s)
            else sql
          | Option.none => sql
      | Option.none =>
        match skip_val with
        | some s =>
          if s > 0 then sql ++ " LIMIT 18446744073709551615 OFFSET " ++ String.mk (intToDec s)
          else sql
        | Option.none => sql
    pure (sql ++ ";")

/-! ## mongo_to_sql.py — operation handlers and dispatch -/

/-- `insert_pattern` of `MongoToSql.__init__`:
`db\.(\w+)\.insert(?:One|Many)?\((.*)\)` (no DOTALL: `.` excludes
newlines). -/
def insert_pattern : Rx :=
  .cat [.lit "db." false, .group 1 wordPlus, .lit ".insert" false,
        .opt (.alt (.lit "One" false) (.lit "Many" false)),
        .lit "(" false, .group 2 (.star anyNoNl false), .lit ")" false]

/-- `update_pattern` of `MongoToSql.__init__`:
`db\.(\w+)\.update(?:One|Many)?\((.*?),\s*(.*?)(?:,\s*({.*?}))?\)`. -/
def update_pattern : Rx :=
  .cat [.lit "db." false, .group 1 wordPlus, .lit ".update" false,
        .opt (.alt (.lit "One" false) (.lit "Many" false)),
        .lit "(" false, .group 2 (.star anyNoNl true), .lit "," false, wsStar,
        .group 3 (.star anyNoNl true),
        .opt (.cat [.lit "," false, wsStar,
                    .group 4 (.cat [.lit "\x7b" false, .star anyNoNl true,
                                    .lit "\x7d" false])]),
        .lit ")" false]

/-- `delete_pattern` of `MongoToSql.__init__`:
`db\.(\w+)\.delete(?:One|Many)?\((.*?)(?:,\s*({.*?}))?\)`. -/
def delete_pattern : Rx :=
  .cat [.lit "db." false, .group 1 wordPlus, .lit ".delete" false,
        .opt (.alt (.lit "One" false) (.lit "Many" false)),
        .lit "(" false, .group 2 (.star anyNoNl true),
        .opt (.cat [.lit "," false, wsStar,
                    .group 3 (.cat [.lit "\x7b" false, .star anyNoNl true,
                                    .lit "\x7d" false])]),
        .lit ")" false]

/-- `aggregate_pattern` of `MongoToSql.__init__`:
`db\.(\w+)\.aggregate\((.*)\)`. -/
def aggregate_pattern : Rx :=
  .cat [.lit "db." false, .group 1 wordPlus, .lit ".aggregate(" false,
        .group 2 (.star anyNoNl false), .lit ")" false]

/-- Source: the IR-building part of `_handle_find` (mongo_to_sql.py,
lines 243–285): match `find_pattern`, split the call arguments on
top-level commas into filter and projection, decode them, decode the
chained sort and read the chained limit/skip.  The enclosing
`try/except` of `_handle_find` is applied by `handle_find`. -/
def handle_find_ir (mongo_query : String) : Except PyErr MongoObj := do
  match findSearch mongo_query.data with
  | Option.none => .error .valueError
  | some g =>
    let params := split_respecting_brackets (pyStrip g.params)
    let query_filter_str := match params with
      | p :: _ => p
      | [] => "\x7b\x7d".data
    let projection_str := match params with
      | _ :: p2 :: _ => p2
      | _ => "\x7b\x7d".data
    let query_filter ← parse_mongo_json (String.mk query_filter_str)
    let projection ← parse_mongo_json (String.mk projection_str)
    let sort_clause ← match g.sortS with
      | some s => do
        let sort_obj ← parse_mongo_json (String.mk s)
        match sort_obj with
        | .obj kvs => pure kvs
        | _ => .error .typeError
      | Option.none => pure []
    let limit_val : Option Int := match g.limitS with
      | some l => pyInt l
      | Option.none => Option.none
    let skip_val : Option Int := match g.skipS with
      | some l => pyInt l
      | Option.none => Option.none
    pure { collection := String.mk g.collection
           find := query_filter
           projection := some projection
           sort := if ¬ sort_clause.isEmpty then some sort_clause else Option.none
           limit := limit_val.map Value.int
           skip := skip_val.map Value.int }

/-- Source: `_handle_find` (mongo_to_sql.py): the IR build and SQL
rendering wrapped in the handler's `try/except`, which turns any failure
into a `ValueError`. -/
def handle_find (mongo_query : String) : Except PyErr String :=
  match handle_find_ir mongo_query >>= mongo_find_to_sql with
  | .ok s => .ok s
  | .error _ => .error .valueError

/-- Lines 348–367 of `_handle_insert` (mongo_to_sql.py), given an
enumeration `all_fields` of the union of the documents' keys: one
parenthesised value row per document in that column order, a field missing
from a document rendering as `NULL`, numbers (and booleans) unquoted and
everything else single-quoted through `str()`.  The source iterates a
Python `set` here, whose order is salted-hash-dependent and unspecified;
`all_fields` makes that order explicit. -/
def insert_sql_of (collection : String) (docs : List PyDict) (all_fields : List String) :
    String :=
  let fields_str := joinSep ", " all_fields
  let values_list := docs.map (fun doc =>
    "(" ++ joinSep ", " (all_fields.map (fun field =>
      match dget doc field with
      | some (.int n) => String.mk (intToDec n)
      | some (.float raw) => raw
      | some (.bool b) => if b then "True" else "False"
      | some v => "'" ++ escape_quotes (pyStr v) ++ "'"
      | Option.none => "NULL")) ++ ")")
  "INSERT INTO " ++ collection ++ " (" ++ fields_str ++ ") VALUES " ++
    joinSep ", " values_list ++ ";"

/-- The first-seen order of the union of the documents' keys (what the
spec asserts for the column list; the source's `set` iteration order is a
permutation of it, unspecified which). -/
def firstSeenFields (docs : List PyDict) : List String :=
  docs.foldl (fun acc doc =>
    doc.foldl (fun a kv => if a.contains kv.1 then a else a ++ [kv.1]) acc) []

/-- Source: `_handle_insert` (mongo_to_sql.py).  `set_order` stands for
Python's set-iteration order (a permutation of the first-seen key list;
see `insert_sql_of`). -/
def handle_insert (set_order : List String → List String) (mongo_query : String) :
    Except PyErr String := do
  match rxSearch insert_pattern mongo_query.data with
  | Option.none => .error .valueError
  | some caps =>
    let collection := String.mk ((capGet caps 1).getD [])
    let docs_str := String.mk ((capGet caps 2).getD [])
    let docsV ← safe_eval docs_str
    let docs : List PyDict ← match docsV with
      | .obj kvs => pure [kvs]
      | .arr xs =>
        if xs.isEmpty then .error .valueError
        else xs.mapM (fun x => match x with
          | .obj kvs => pure kvs
          | _ => .error .typeError)
      | v => if ¬ pyTruthy v then .error .valueError else .error .typeError
    let all_fields := set_order (firstSeenFields docs)
    pure (insert_sql_of collection docs all_fields)

/-- Source: `_handle_update` (mongo_to_sql.py).  The `$set` sub-object (or
the whole update document) becomes the SET clause; `updateOne` anywhere in
the query text appends `LIMIT 1`. -/
def handle_update (mongo_query : String) : Except PyErr String := do
  match rxSearch update_pattern mongo_query.data with
  | Option.none => .error .valueError
  | some caps =>
    let collection := String.mk ((capGet caps 1).getD [])
    let filter_str := String.mk ((capGet caps 2).getD [])
    let update_str := String.mk ((capGet caps 3).getD [])
    let options_str := String.mk ((capGet caps 4).getD "\x7b\x7d".data)
    let filter_obj ← safe_eval filter_str
    let update_obj ← safe_eval update_str
    let _options ← safe_eval options_str
    let where_clause ← build_where_sql filter_obj
    let set_obj : Value := match update_obj with
      | .obj kvs =>
        if dhas kvs "$set" then (dget kvs "$set").getD .none else .obj kvs
      | v => v
    let set_items ← match set_obj with
      | .obj kvs => pure kvs
      | _ => .error .typeError
    let set_clause := joinSep ", " (set_items.map (fun fv =>
      match fv.2 with
      | .int n => fv.1 ++ " = " ++ String.mk (intToDec n)
      | .float raw => fv.1 ++ " = " ++ raw
      | .bool b => fv.1 ++ " = " ++ (if b then "True" else "False")
      | v => fv.1 ++ " = '" ++ escape_quotes (pyStr v) ++ "'"))
    let sql := "UPDATE " ++ collection ++ " SET " ++ set_clause
    let sql := if where_clause ≠ "" then sql ++ " WHERE " ++ where_clause else sql
    let sql := if containsSub "updateOne".data mongo_query.data then sql ++ " LIMIT 1" else sql
    pure (sql ++ ";")

/-- Source: `_handle_delete` (mongo_to_sql.py).  The filter becomes the
WHERE clause; `deleteOne` anywhere in the query text appends `LIMIT 1`. -/
def handle_delete (mongo_query : String) : Except PyErr String := do
  match rxSearch delete_pattern mongo_query.data with
  | Option.none => .error .valueError
  | some caps =>
    let collection := String.mk ((capGet caps 1).getD [])
    let filter_str := String.mk ((capGet caps 2).getD [])
    let options_str := String.mk ((capGet caps 3).getD "\x7b\x7d".data)
    let filter_obj ← safe_eval filter_str
    let _options ← safe_eval options_str
    let where_clause ← build_where_sql filter_obj
    let sql := "DELETE FROM " ++ collection
    let sql := if where_clause ≠ "" then sql ++ " WHERE " ++ where_clause else sql
    let sql := if containsSub "deleteOne".data mongo_query.data then sql ++ " LIMIT 1" else sql
    pure (sql ++ ";")

/-- Source: `_handle_aggregate` (mongo_to_sql.py).  A pipeline whose first
stage is `$lookup` goes to the join renderer; a `$group` stage is kept on
the query object; otherwise match/project/sort/limit/skip stages are
folded in order into the query object, then rendered as a find. -/
def handle_aggregate (mongo_query : String) : Except PyErr String := do
  match rxSearch aggregate_pattern mongo_query.data with
  | Option.none => .error .valueError
  | some caps =>
    let collection := String.mk ((capGet caps 1).getD [])
    let pipeline_str := String.mk ((capGet caps 2).getD [])
    let pipelineV ← safe_eval pipeline_str
    let pipeline : List Value ← match pipelineV with
      | .arr xs => pure xs
      | _ => .error .typeError
    let mongo_obj : MongoObj := { collection := collection, pipeline := some pipeline }
    let mongo_obj := match pipeline with
      | .obj kvs :: _ =>
        match dget kvs "$match" with
        | some m => { mongo_obj with find := m }
        | Option.none => mongo_obj
      | _ => mongo_obj
    let group_stage : Option Value := pipeline.find? (fun st =>
      match st with
      | .obj kvs => dhas kvs "$group"
      | _ => false)
    let mongo_obj := match group_stage with
      | some g => { mongo_obj with group := some g }
      | Option.none => mongo_obj
    let lookup_stage : Option Value := pipeline.find? (fun st =>
      match st with
      | .obj kvs => dhas kvs "$lookup"
      | _ => false)
    let firstIsLookup := match lookup_stage, pipeline with
      | some ls, p0 :: _ => ls.beq p0
      | _, _ => false
    if firstIsLookup then handle_join_pipeline mongo_obj
    else if mongo_obj.group.isSome then mongo_find_to_sql mongo_obj
    else
      let mongo_obj := pipeline.foldl (fun (mo : MongoObj) st =>
        match st with
        | .obj kvs =>
          if dhas kvs "$match" then { mo with find := (dget kvs "$match").getD .none }
          else if dhas kvs "$project" then
            { mo with projection := dget kvs "$project" }
          else if dhas kvs "$sort" then
            match dget kvs "$sort" with
            | some (.obj skvs) => { mo with sort := some skvs }
            | _ => mo
          else if dhas kvs "$limit" then { mo with limit := dget kvs "$limit" }
          else if dhas kvs "$skip" then { mo with skip := dget kvs "$skip" }
          else mo
        | _ => mo) mongo_obj
      -- The folded object still carries its `pipeline` key, and
      -- `_mongo_find_to_sql` checks that key right after `group`: a
      -- `$lookup`-free pipeline therefore re-enters the join handler and
      -- fails there, exactly as the source does.
      mongo_find_to_sql mongo_obj

/-- Source: `convert` (mongo_to_sql.py).  Strip, then dispatch on the
first call shape found: find, insert, update, delete, aggregate; anything
else is a `ValueError`.  `set_order` is threaded to the insert handler
(see `handle_insert`). -/
def convert (set_order : List String → List String) (mongo_query : String) :
    Except PyErr String :=
  let q := String.mk (pyStrip mongo_query.data)
  let callHit (base : String) (suffixed : Bool) : Bool :=
    let cs := q.data
    let rec scan : List Char → Bool
      | [] => false
      | c :: tl =>
        (isPrefixL base.data (c :: tl) &&
          (let after := (c :: tl).drop base.data.length
           isPrefixL "(".data after ||
             (suffixed && (isPrefixL "One(".data after || isPrefixL "Many(".data after))))
        || scan tl
    scan cs
  if callHit ".find" false then handle_find q
  else if callHit ".insert" true then handle_insert set_order q
  else if callHit ".update" true then handle_update q
  else if callHit ".delete" true then handle_delete q
  else if callHit ".aggregate" false then handle_aggregate q
  else .error .valueError

end MongoToSql

/-- Source: `mongo_query_to_sql` (mongo_to_sql.py): construct the converter
and convert. -/
def mongo_query_to_sql (set_order : List String → List String) (mongo_query : String) :
    Except PyErr String :=
  MongoToSql.convert set_order mongo_query

/-! ## Semantics of rendered Mongo filter predicates

To interpret the spec's "always-false predicate" / "always-true predicate"
policy for the Mongo output syntax, a filter document is given its MongoDB
matching semantics over a flat document (association list of scalar
values): `$in` matches when the field's value (null when the field is
missing) equals a member of the list, `$nin` is its negation, `$eq`/`$ne`
compare structurally, `$exists` tests presence, and the four order
operators compare integers (other operand shapes do not occur in the
claims).  Array-valued document fields (MongoDB's member-wise matching)
are out of scope. -/
def inListMatches (docVal : Option Value) (xs : List Value) : Bool :=
  xs.any (fun x => x.beq (docVal.getD .none))

/-- One operator condition against the (optional) value of a field. -/
def mongoOpHolds (docVal : Option Value) (op : String) (arg : Value) : Bool :=
  if op = "$in" then
    match arg with
    | .arr xs => inListMatches docVal xs
    | _ => false
  else if op = "$nin" then
    !(match arg with
      | .arr xs => inListMatches docVal xs
      | _ => false)
  else if op = "$eq" then (docVal.getD .none).beq arg
  else if op = "$ne" then !(docVal.getD .none).beq arg
  else if op = "$exists" then
    (if pyTruthy arg then docVal.isSome else !docVal.isSome)
  else
    match docVal.getD .none, arg with
    | .int a, .int b =>
      if op = "$gt" then decide (a > b)
      else if op = "$gte" then decide (a ≥ b)
      else if op = "$lt" then decide (a < b)
      else if op = "$lte" then decide (a ≤ b)
      else false
    | _, _ => false

/-- A whole filter document against a document: every entry must hold; an
entry with an operator object requires every operator to hold, a scalar
entry is an equality test (a missing field equals null). -/
def filterMatches (doc : PyDict) (filter : PyDict) : Bool :=
  filter.all (fun fv =>
    match fv.2 with
    | .obj ops => ops.all (fun ov => mongoOpHolds (dget doc fv.1) ov.1 ov.2)
    | v => ((dget doc fv.1).getD .none).beq v)

/-! ## Concrete inputs used by the claims -/

/-- The sqlparse token stream of
`"SELECT name, age FROM users WHERE age > 30;"`: DML keyword, identifier
list, FROM, table identifier, and the trailing `Where` group that carries
the rest of the statement text. -/
def tokensC1 : List SqlTok :=
  [.dml "SELECT", .ws, .identList ["name", "age"], .ws, .keyword "FROM", .ws,
   .ident "users", .ws, .whereTok "WHERE age > 30;"]

/-- The raw text of the C1 example query. -/
def rawC1 : String := "SELECT name, age FROM users WHERE age > 30;"

/-- The sqlparse token stream of `"CREATE TABLE users (id INT);"`: a DDL
keyword followed by the rest of the statement. -/
def tokensC8 : List SqlTok :=
  [.ddl "CREATE", .ws, .other "TABLE users (id INT);"]

/-! ## Lemmas: decimal numerals and list scanning -/

theorem charVal_digitChar {d : Nat} (h : d < 10) : charVal (digitChar d) = d := by
  interval_cases d <;> decide

theorem digitChar_isDigit {d : Nat} (h : d < 10) : (digitChar d).isDigit = true := by
  interval_cases d <;> decide

theorem digitsVal_append_singleton (xs : List Char) (c : Char) :
    digitsVal (xs ++ [c]) = digitsVal xs * 10 + charVal c := by
  simp [digitsVal, List.foldl_append]

theorem digitsVal_rev_digits (L : List Nat) (h : ∀ d ∈ L, d < 10) :
    digitsVal ((L.reverse).map digitChar) = Nat.ofDigits 10 L := by
  induction L with
  | nil => simp [digitsVal, Nat.ofDigits]
  | cons d t ih =>
    have hd : d < 10 := h d (by simp)
    have ht : ∀ x ∈ t, x < 10 := fun x hx => h x (by simp [hx])
    rw [List.reverse_cons, List.map_append]
    simp only [List.map_cons, List.map_nil]
    rw [digitsVal_append_singleton, ih ht, Nat.ofDigits_cons, charVal_digitChar hd]
    ring

theorem natDigitsRev_eq : ∀ fuel n, n ≤ fuel → natDigitsRev fuel n = Nat.digits 10 n := by
  intro fuel
  induction fuel with
  | zero =>
    intro n hn
    interval_cases n
    rw [Nat.digits_zero]
    rfl
  | succ fuel ih =>
    intro n hn
    cases n with
    | zero => rw [Nat.digits_zero]; rfl
    | succ m =>
      show ((m + 1) % 10) :: natDigitsRev fuel ((m + 1) / 10) = _
      have hdiv : (m + 1) / 10 ≤ fuel := by
        have := Nat.div_lt_self (Nat.succ_pos m) (show 1 < 10 by norm_num)
        omega
      rw [Nat.digits_def' (show 1 < 10 by norm_num) (Nat.succ_pos m), ih _ hdiv]

theorem digitsVal_natToDec (n : Nat) : digitsVal (natToDec n) = n := by
  by_cases h : n = 0
  · subst h; decide
  · rw [natToDec, if_neg h, natDigitsRev_eq _ _ (Nat.le_succ n), digitsVal_rev_digits _
      (fun d hd => Nat.digits_lt_base (by norm_num) hd), Nat.ofDigits_digits]

theorem natToDec_ne_nil (n : Nat) : natToDec n ≠ [] := by
  by_cases h : n = 0
  · subst h; decide
  · rw [natToDec, if_neg h, natDigitsRev_eq _ _ (Nat.le_succ n)]
    intro hcon
    have hne : Nat.digits 10 n ≠ [] := Nat.digits_ne_nil_iff_ne_zero.mpr h
    simp at hcon
    exact hne hcon

theorem natToDec_all_digits (n : Nat) : ∀ c ∈ natToDec n, c.isDigit = true := by
  by_cases h : n = 0
  · subst h; decide
  · rw [natToDec, if_neg h, natDigitsRev_eq _ _ (Nat.le_succ n)]
    intro c hc
    simp only [List.mem_map, List.mem_reverse] at hc
    obtain ⟨d, hd, rfl⟩ := hc
    exact digitChar_isDigit (Nat.digits_lt_base (by norm_num) hd)

theorem isDigit_not_isWs {c : Char} (h : c.isDigit = true) : isWs c = false := by
  cases hw : isWs c
  · rfl
  · exfalso
    simp only [isWs, Bool.or_eq_true, decide_eq_true_eq] at hw
    rcases hw with ((rfl | rfl) | rfl) | rfl <;> simp_all

theorem dropWhile_all_false {p : Char → Bool} {cs : List Char}
    (h : ∀ c ∈ cs, p c = false) : cs.dropWhile p = cs := by
  cases cs with
  | nil => rfl
  | cons c tl => simp [List.dropWhile_cons, h c (by simp)]

theorem pyStrip_all_digits {cs : List Char} (h : ∀ c ∈ cs, c.isDigit = true) :
    pyStrip cs = cs := by
  have hws : ∀ c ∈ cs, isWs c = false := fun c hc => isDigit_not_isWs (h c hc)
  have h1 : lstripP isWs cs = cs := dropWhile_all_false hws
  have h2 : ∀ c ∈ cs.reverse, isWs c = false := fun c hc =>
    hws c (List.mem_reverse.mp hc)
  simp [pyStrip, rstripP, h1, dropWhile_all_false h2]

theorem pyInt_all_digits {cs : List Char} (h1 : cs ≠ []) (h2 : ∀ c ∈ cs, c.isDigit = true) :
    pyInt cs = some ((digitsVal cs : Int)) := by
  have hall : cs.all Char.isDigit = true := List.all_eq_true.mpr h2
  simp only [pyInt]
  rw [pyStrip_all_digits h2]
  cases hcs : cs with
  | nil => exact absurd hcs h1
  | cons c tl =>
    have hc : c.isDigit = true := h2 c (by rw [hcs]; simp)
    have hnm : c ≠ '-' := by rintro rfl; simp at hc
    have hnp : c ≠ '+' := by rintro rfl; simp at hc
    rw [hcs] at hall
    split
    · rename_i r heq
      injection heq with hh _
      exact absurd hh hnm
    · rename_i r heq
      injection heq with hh _
      exact absurd hh hnp
    · rw [if_pos ⟨by simp, hall⟩]

theorem takeWhile_append_stop {p : Char → Bool} {xs : List Char} {y : Char} {r : List Char}
    (hx : ∀ c ∈ xs, p c = true) (hy : p y = false) :
    (xs ++ y :: r).takeWhile p = xs := by
  induction xs with
  | nil => simp [List.takeWhile_cons, hy]
  | cons a tl ih =>
    simp only [List.cons_append, List.takeWhile_cons, hx a (by simp), if_true]
    simp [ih (fun c hc => hx c (by simp [hc]))]

theorem isPrefixL_append_self (p r : List Char) : isPrefixL p (p ++ r) = true := by
  induction p with
  | nil => rfl
  | cons a as ih => simp [isPrefixL, ih]

theorem isPrefixL_cons_nil (a : Char) (as : List Char) : isPrefixL (a :: as) [] = false :=
  rfl

theorem isPrefixL_cons (a b : Char) (as bs : List Char) :
    isPrefixL (a :: as) (b :: bs) = (a == b && isPrefixL as bs) :=
  rfl

theorem drop_len_append (p r : List Char) : (p ++ r).drop p.length = r :=
  List.drop_left p r

theorem ne_nil_not_isEmpty {α : Type} {l : List α} (h : l ≠ []) : l.isEmpty = false := by
  cases l with
  | nil => exact absurd rfl h
  | cons a tl => rfl

theorem tryDigitTail_digits (name : String) (ds rest : List Char) (hne : ds ≠ [])
    (hdig : ∀ c ∈ ds, c.isDigit = true) :
    MongoToSql.tryDigitTail name (name.data ++ (ds ++ ')' :: rest)) = (some ds, rest) := by
  unfold MongoToSql.tryDigitTail
  rw [isPrefixL_append_self, if_pos rfl, drop_len_append]
  simp only [takeWhile_append_stop (y := ')') (r := rest) hdig (by decide),
             ne_nil_not_isEmpty hne, Bool.false_eq_true, if_false, drop_len_append]

theorem findMatchAt_limit (ds : List Char) :
    MongoToSql.findMatchAt ("db.users.find(\x7b  \x7d).limit(".data ++ (ds ++ [')'])) =
      some ⟨"users".data, "\x7b  \x7d".data, Option.none,
            (MongoToSql.tryDigitTail ".limit(" (".limit(".data ++ (ds ++ ')' :: []))).1,
            (MongoToSql.tryDigitTail ".skip("
              (MongoToSql.tryDigitTail ".limit(" (".limit(".data ++ (ds ++ ')' :: []))).2).1⟩ :=
  rfl

theorem findMatchAt_limit' (ds : List Char) (hne : ds ≠ []) (hdig : ∀ c ∈ ds, c.isDigit = true) :
    MongoToSql.findMatchAt ("db.users.find(\x7b  \x7d).limit(".data ++ (ds ++ [')'])) =
      some ⟨"users".data, "\x7b  \x7d".data, Option.none, some ds, Option.none⟩ := by
  rw [findMatchAt_limit ds, tryDigitTail_digits ".limit(" ds [] hne hdig]
  rfl

theorem findSearch_of_matchAt {cs : List Char} {g : MongoToSql.FindGroups}
    (h : MongoToSql.findMatchAt cs = some g) : MongoToSql.findSearch cs = some g := by
  cases cs with
  | nil => simp [MongoToSql.findSearch, h]
  | cons c tl => simp [MongoToSql.findSearch, h]

theorem intToDec_nonneg {L : Int} (hL : 1 ≤ L) : intToDec L = natToDec L.toNat := by
  unfold intToDec
  rw [if_neg (by omega)]

theorem render_limit_data (L S : Int) (hL : 1 ≤ L) :
    (format_mongo_find { collection := "users", find := [], projection := Option.none,
                         sort := Option.none, limit := some L, group := Option.none,
                         skip := some S }).data
      = "db.users.find(\x7b  \x7d).limit(".data ++ (natToDec L.toNat ++ [')']) := by
  simp only [format_mongo_find]
  rw [if_pos (show L ≠ 0 by omega), intToDec_nonneg hL]
  rfl

set_option maxHeartbeats 1000000 in
theorem handle_find_ir_digits (ds : List Char) (hne : ds ≠ []) (hdig : ∀ c ∈ ds, c.isDigit = true)
    (s : String) (hdata : s.data = "db.users.find(\x7b  \x7d).limit(".data ++ (ds ++ [')'])) :
    MongoToSql.handle_find_ir s = .ok
      { collection := "users", find := .obj [], projection := some (.obj []),
        sort := Option.none, limit := some (.int (digitsVal ds : Int)),
        skip := Option.none } := by
  unfold MongoToSql.handle_find_ir
  rw [hdata, findSearch_of_matchAt (findMatchAt_limit' ds hne hdig)]
  trans Except.ok (MongoToSql.MongoObj.mk "users" (Value.obj []) (some (Value.obj []))
      Option.none ((pyInt ds).map Value.int) Option.none Option.none Option.none)
  · rfl
  · rw [pyInt_all_digits hne hdig]
    rfl


theorem parse_mongo_json_fallback_err (fuel : Nat) (s : List Char) (e : PyErr)
    (h : MongoToSql.parse_mongo_json_fallback fuel s = .error e) : e = .valueError := by
  unfold MongoToSql.parse_mongo_json_fallback at h
  split at h
  · cases h
  · injection h with h1
    exact h1.symm

theorem parse_mongo_json_tail_err (fuel : Nat) (s : List Char) (e : PyErr)
    (h : MongoToSql.parse_mongo_json_tail fuel s = .error e) : e = .valueError := by
  unfold MongoToSql.parse_mongo_json_tail at h
  split at h
  · cases h
  · exact parse_mongo_json_fallback_err _ _ _ h

/-! ## The claims

Each claim of the specification is settled by one theorem below, with a
closed counterexample theorem where the claim as stated fails and a witness
theorem where a proved theorem carries hypotheses. -/

/-- Claim C1: parsing `SELECT name, age FROM users WHERE age > 30;` yields
the filter `age: {$gt: 30}` with projection columns `name, age`, and the
Mongo rendering of that query object — which carries the `db.` prefix the
claim's expected text omits. -/
theorem claim_C1_select_roundtrip :
    parse_select_statement tokensC1 =
      (["name", "age"], some "users", [("age", Value.obj [("$gt", Value.int 30)])],
       [], [], Option.none) ∧
    sql_to_mongo tokensC1 rawC1 =
      .ok "db.users.find(\x7b age: \x7b $gt: 30 \x7d \x7d, \x7b name: 1, age: 1 \x7d)" :=
  ⟨rfl, rfl⟩

/-- Claim C1, counterexample to the claimed rendering: the translator's
output starts with `db.`, so it is not the claim's `users.find(...)`. -/
theorem claim_C1_counterexample :
    sql_to_mongo tokensC1 rawC1 =
      .ok "db.users.find(\x7b age: \x7b $gt: 30 \x7d \x7d, \x7b name: 1, age: 1 \x7d)" ∧
    ("db.users.find(\x7b age: \x7b $gt: 30 \x7d \x7d, \x7b name: 1, age: 1 \x7d)" : String) ≠
      "users.find(\x7b age: \x7b $gt: 30 \x7d \x7d, \x7b name: 1, age: 1 \x7d)" :=
  ⟨rfl, by decide⟩

/-- Claim C2: in WHERE parsing only the four inequality operators convert
their literal; `=` stores the stripped raw text as a string, so `age = 30`
maps age to the string `"30"` (and `TRUE` stays the string `"TRUE"`),
against the claim's literal rules. -/
theorem claim_C2_eq_raw_string :
    parse_where_conditions "age = 30" = [("age", Value.str "30")] ∧
    parse_where_conditions "age > 30" = [("age", Value.obj [("$gt", Value.int 30)])] ∧
    parse_where_conditions "name = 'x'" = [("name", Value.str "x")] ∧
    parse_where_conditions "flag = TRUE" = [("flag", Value.str "TRUE")] :=
  ⟨rfl, rfl, rfl, rfl⟩

/-- Claim C2, counterexample: `WHERE age = 30` yields the string `"30"`,
which is not the integer 30 the claim asserts. -/
theorem claim_C2_counterexample :
    parse_where_conditions "age = 30" = [("age", Value.str "30")] ∧
    Value.str "30" ≠ Value.int 30 :=
  ⟨rfl, fun h => Value.noConfusion h⟩

/-- Claim C3 (amended): for a positive limit L the render/parse round trip
recovers L, but the skip value is always lost — `_format_mongo_find` never
renders `.skip`, so parsing recovers `skip = None` whatever S was. -/
theorem claim_C3_limit_roundtrip (L S : Int) (hL : 1 ≤ L) :
    MongoToSql.handle_find_ir (format_mongo_find
      { collection := "users", find := [], projection := Option.none,
        sort := Option.none, limit := some L, group := Option.none, skip := some S }) =
    .ok { collection := "users", find := .obj [], projection := some (.obj []),
          sort := Option.none, limit := some (.int L), skip := Option.none } := by
  have h := handle_find_ir_digits (natToDec L.toNat) (natToDec_ne_nil _) (natToDec_all_digits _)
      _ (render_limit_data L S hL)
  rw [digitsVal_natToDec, Int.toNat_of_nonneg (by omega)] at h
  exact h

/-- Claim C3, witness at L = 3, S = 7. -/
theorem claim_C3_witness :
    (1 : Int) ≤ 3 ∧
    MongoToSql.handle_find_ir (format_mongo_find
      { collection := "users", find := [], projection := Option.none,
        sort := Option.none, limit := some 3, group := Option.none, skip := some 7 }) =
    .ok { collection := "users", find := .obj [], projection := some (.obj []),
          sort := Option.none, limit := some (.int 3), skip := Option.none } :=
  ⟨by norm_num, claim_C3_limit_roundtrip 3 7 (by norm_num)⟩

/-- Claim C3, counterexample at L = 0, S = 1: the renderer drops a zero
limit and never renders skip, so parsing the rendered text recovers
neither. -/
theorem claim_C3_counterexample :
    format_mongo_find { collection := "users", find := [], projection := Option.none,
                        sort := Option.none, limit := some 0, group := Option.none,
                        skip := some 1 }
      = "db.users.find(\x7b  \x7d)" ∧
    MongoToSql.handle_find_ir "db.users.find(\x7b  \x7d)" =
      .ok { collection := "users", find := .obj [], projection := some (.obj []),
            sort := Option.none, limit := Option.none, skip := Option.none } :=
  ⟨rfl, rfl⟩

/-- Claim C4: the multi-document insert renders one VALUES row per document
with NULL for a document's missing fields, but its column list comes from
iterating a Python `set`, whose order is interpreter-salt dependent: with
the same input, the first-seen order `(b, a)` and the equally possible
order `(a, b)` produce different INSERT statements. -/
theorem claim_C4_insert_set_order :
    MongoToSql.firstSeenFields [[("b", Value.int 1)], [("a", Value.int 2)]] = ["b", "a"] ∧
    MongoToSql.handle_insert (fun l => l)
        "db.users.insertMany([\x7b\"b\": 1\x7d, \x7b\"a\": 2\x7d])" =
      .ok "INSERT INTO users (b, a) VALUES (1, NULL), (NULL, 2);" ∧
    MongoToSql.handle_insert (fun l => l.reverse)
        "db.users.insertMany([\x7b\"b\": 1\x7d, \x7b\"a\": 2\x7d])" =
      .ok "INSERT INTO users (a, b) VALUES (NULL, 1), (2, NULL);" ∧
    (List.reverse ["b", "a"]).Perm ["b", "a"] :=
  ⟨rfl, rfl, rfl, by decide⟩

/-- Claim C5: converting `{field: {$regex: p}}` to SQL yields a LIKE
pattern anchored by where the regex anchors sit: `^` (removed) means
starts-with, a trailing `$` (removed) means ends-with, anything else means
contains — for every field name and pattern string. -/
theorem claim_C5_regex_like (field p : String) :
    MongoToSql.convert_operator field "$regex" (Value.str p) =
      (if isPrefixL ['^'] p.data then
         Except.ok (field ++ " LIKE '" ++
           MongoToSql.escape_quotes (String.mk (p.data.drop 1)) ++ "%'")
       else if p.data.getLast? = some '$' then
         Except.ok (field ++ " LIKE '%" ++
           MongoToSql.escape_quotes (String.mk p.data.dropLast) ++ "'")
       else
         Except.ok (field ++ " LIKE '%" ++ MongoToSql.escape_quotes p ++ "%'")) := by
  have step : MongoToSql.convert_operator field "$regex" (Value.str p) =
      (if ("'" ++ MongoToSql.escape_quotes p ++ "'" : String) = "NULL" ∧
           ("LIKE" : String) = "=" then
         Except.ok (field ++ " IS NULL")
       else if ("'" ++ MongoToSql.escape_quotes p ++ "'" : String) = "NULL" ∧
           ("LIKE" : String) = "<>" then
         Except.ok (field ++ " IS NOT NULL")
       else if isPrefixL ['^'] p.data then
         Except.ok (field ++ " LIKE '" ++
           MongoToSql.escape_quotes (String.mk (p.data.drop 1)) ++ "%'")
       else if p.data.getLast? = some '$' then
         Except.ok (field ++ " LIKE '%" ++
           MongoToSql.escape_quotes (String.mk p.data.dropLast) ++ "'")
       else Except.ok (field ++ " LIKE '%" ++ MongoToSql.escape_quotes p ++ "%'")) := rfl
  rw [step, if_neg (fun hcontra => absurd hcontra.2 (by decide)),
      if_neg (fun hcontra => absurd hcontra.2 (by decide))]

/-- Claim C6: for every field name, an empty `$in` list converts to the SQL
constant `FALSE` and an empty `$nin` list to `TRUE`; and in the Mongo
output syntax, a filter `{field: {$in: []}}` matches no document while
`{field: {$nin: []}}` matches every document. -/
theorem claim_C6_empty_in_nin (field : String) :
    MongoToSql.convert_operator field "$in" (Value.arr []) = .ok "FALSE" ∧
    MongoToSql.convert_operator field "$nin" (Value.arr []) = .ok "TRUE" ∧
    (∀ doc : PyDict, filterMatches doc [(field, Value.obj [("$in", Value.arr [])])] = false) ∧
    (∀ doc : PyDict, filterMatches doc [(field, Value.obj [("$nin", Value.arr [])])] = true) :=
  ⟨rfl, rfl, fun _ => rfl, fun _ => rfl⟩

/-- Claim C7 (amended): whatever the input, a `_parse_mongo_json` failure
is a `ValueError` — never a `SyntaxError`; the bracket-balancing repair is
never attempted (see the counterexample). -/
theorem claim_C7_error_kind (s : String) (e : PyErr)
    (h : MongoToSql.parse_mongo_json s = .error e) : e = .valueError := by
  unfold MongoToSql.parse_mongo_json at h
  split at h
  · cases h
  · exact parse_mongo_json_tail_err _ _ _ h

/-- Claim C7, witness: a concrete failing decode, with `ValueError` as the
error kind. -/
theorem claim_C7_witness :
    MongoToSql.parse_mongo_json "\x7b\"a\": \x7b\"b\": 1" = .error PyErr.valueError ∧
    PyErr.valueError = PyErr.valueError :=
  ⟨rfl, claim_C7_error_kind "\x7b\"a\": \x7b\"b\": 1" PyErr.valueError rfl⟩

/-- Claim C7, counterexample: an unbalanced object literal fails with
`ValueError` (not the claimed `SyntaxError`) even though the
bracket-balancing repair the claim describes would have made it decode —
the repair helper is dead code. -/
theorem claim_C7_counterexample :
    MongoToSql.parse_mongo_json "\x7b\"a\": \x7b\"b\": 1" = .error PyErr.valueError ∧
    PyErr.valueError ≠ PyErr.syntaxError ∧
    MongoToSql.parse_mongo_json
        (String.mk (MongoToSql.balance_brackets "\x7b\"a\": \x7b\"b\": 1".data)) =
      .ok (.obj [("a", Value.obj [("b", Value.int 1)])]) :=
  ⟨rfl, by decide, rfl⟩

/-- Claim C8: a single statement whose type is none of SELECT, INSERT,
UPDATE, DELETE makes `sql_to_mongo` fail with `NotImplementedError` (the
source's unsupported-operation kind), whatever the query text. -/
theorem claim_C8_unsupported_statement (statement : List SqlTok) (sql_query : String)
    (h : get_type statement ∉ (["SELECT", "INSERT", "UPDATE", "DELETE"] : List String)) :
    sql_to_mongo statement sql_query = .error .notImplementedError := by
  simp only [List.mem_cons, List.not_mem_nil, or_false, not_or] at h
  obtain ⟨h1, h2, h3, h4⟩ := h
  simp [sql_to_mongo, h1, h2, h3, h4]

/-- Claim C8, witness on a CREATE TABLE statement. -/
theorem claim_C8_witness :
    get_type tokensC8 ∉ (["SELECT", "INSERT", "UPDATE", "DELETE"] : List String) ∧
    sql_to_mongo tokensC8 "CREATE TABLE users (id INT);" = .error .notImplementedError :=
  ⟨by decide, claim_C8_unsupported_statement tokensC8 "CREATE TABLE users (id INT);" (by decide)⟩

/-- Claim C9: `db.users.deleteOne({"_id": 1})` dispatches to the delete
handler; `deleteOne` in the text makes the handler append `LIMIT 1`
(affects-one), and the rendered SQL is exactly the claimed statement —
for every set-iteration order (the insert handler's order parameter is
irrelevant to deletes). -/
theorem claim_C9_delete_one (set_order : List String → List String) :
    mongo_query_to_sql set_order "db.users.deleteOne(\x7b\"_id\": 1\x7d)" =
      MongoToSql.handle_delete "db.users.deleteOne(\x7b\"_id\": 1\x7d)" ∧
    MongoToSql.handle_delete "db.users.deleteOne(\x7b\"_id\": 1\x7d)" =
      .ok "DELETE FROM users WHERE _id = 1 LIMIT 1;" ∧
    containsSub "deleteOne".data "db.users.deleteOne(\x7b\"_id\": 1\x7d)".data = true :=
  ⟨rfl, rfl, rfl⟩

/-- Claim C10: the single-quoted find filter `{'name': 'untrue'}` is
decoded by the fallback evaluator, whose keyword rewrite also fires inside
the quoted string value: the parsed value is `unTrue`, not the written
`untrue`, and the rendered SQL carries the altered value. -/
theorem claim_C10_fallback_rewrites_strings :
    MongoToSql.parse_mongo_json "\x7b'name': 'untrue'\x7d" =
      .ok (.obj [("name", Value.str "unTrue")]) ∧
    MongoToSql.handle_find "db.users.find(\x7b'name': 'untrue'\x7d)" =
      .ok "SELECT * FROM users WHERE name = 'unTrue';" ∧
    ("unTrue" : String) ≠ "untrue" :=
  ⟨rfl, rfl, by decide⟩
